import Mathlib

/-!
Shallow embedding of the Alpha Prophet warehouse analytics core
(`src/tools.py` and `src/google_maps.py`).

Conventions of the embedding:
* Python `float` arithmetic is modelled over `ℚ` (exact); `round(x, n)` is
  modelled as decimal round-half-to-even, `int(x)` as truncation toward zero.
* Python strings are Lean `String`s; `.upper()/.lower()/.strip()/.title()`
  are modelled character-wise (ASCII), `a in b` as substring containment
  (pandas `str.contains` is used by the source only with literal,
  regex-free patterns).
* A pandas `DataFrame` is a `List` of row structures; `NaT`/`NaN` dates are
  `Option` fields; `fillna(0)` quantities are plain `ℚ` fields.
* `datetime` values are civil dates (the source only ever compares dates at
  day granularity: ship/order dates parse to midnight, and the one
  sub-day bound `specific_date + 1 day - 1 sec` keeps the same civil day).
-/

namespace Prophet

/-- Python `str.upper()` (ASCII). -/
def pyUpper (s : String) : String := ⟨s.data.map Char.toUpper⟩

/-- Python `str.lower()` (ASCII). -/
def pyLower (s : String) : String := ⟨s.data.map Char.toLower⟩

/-- Python whitespace for `str.strip()` / `str.split()`. -/
def isPyWs (c : Char) : Bool :=
  c == ' ' || c == '\t' || c == '\n' || c == '\r' || c == '\x0b' || c == '\x0c'

/-- Python `str.strip()`. -/
def pyStrip (s : String) : String :=
  ⟨((s.data.dropWhile isPyWs).reverse.dropWhile isPyWs).reverse⟩

/-- `sub` begins the character list `l`. -/
def listLeads : List Char → List Char → Bool
  | [], _ => true
  | _ :: _, [] => false
  | a :: as, b :: bs => a == b && listLeads as bs

/-- Python substring test `sub in l` on character lists. -/
def listHasSub (l sub : List Char) : Bool :=
  listLeads sub l ||
    match l with
    | [] => false
    | _ :: t => listHasSub t sub

/-- Python substring test `sub in s`. -/
def strHasSub (s sub : String) : Bool := listHasSub s.data sub.data

/-- Split a character list at every character satisfying `p`
(Python `str.split(sep)` semantics: keeps empty pieces). -/
def splitBy (p : Char → Bool) : List Char → List (List Char)
  | [] => [[]]
  | x :: xs =>
    let r := splitBy p xs
    if p x then [] :: r
    else
      match r with
      | [] => [[x]]
      | h :: t => (x :: h) :: t

/-- Python `s.split(c)` for a single-character separator. -/
def pySplitChar (c : Char) (s : String) : List String :=
  (splitBy (· == c) s.data).map (fun l => ⟨l⟩)

/-- Python `s.split()` (split on whitespace runs, dropping empties). -/
def pyWords (s : String) : List String :=
  ((splitBy isPyWs s.data).filter (fun w => !w.isEmpty)).map (fun l => ⟨l⟩)

/-- Python `s[-2:]`. -/
def lastTwo (s : String) : String := ⟨(s.data.reverse.take 2).reverse⟩

/-- Python `s[-15:]`. -/
def lastFifteen (s : String) : String := ⟨(s.data.reverse.take 15).reverse⟩

/-- Python `s.replace(" ", "")`. -/
def removeSpaces (s : String) : String := ⟨s.data.filter (fun c => c != ' ')⟩

def pyTitleAux : Bool → List Char → List Char
  | _, [] => []
  | prevAlpha, c :: cs =>
    let c' := if c.isAlpha then (if prevAlpha then c.toLower else c.toUpper) else c
    c' :: pyTitleAux c.isAlpha cs

/-- Python `str.title()` (ASCII): first letter of each alphabetic run
uppercased, the rest lowercased. -/
def pyTitle (s : String) : String := ⟨pyTitleAux false s.data⟩

def dedupFirstAux : List String → List String → List String
  | _, [] => []
  | seen, x :: xs =>
    if x ∈ seen then dedupFirstAux seen xs
    else x :: dedupFirstAux (x :: seen) xs

/-- First-occurrence deduplication (pandas `.unique()` order). -/
def dedupFirst (l : List String) : List String := dedupFirstAux [] l

/-- Python `int(x)`: truncation toward zero. -/
def pyInt (q : ℚ) : ℤ := if 0 ≤ q then ⌊q⌋ else ⌈q⌉

/-- Round a rational to the nearest integer, ties to even
(Python `round`). -/
def pyRoundInt (q : ℚ) : ℤ :=
  if q - ⌊q⌋ < 1/2 then ⌊q⌋
  else if 1/2 < q - ⌊q⌋ then ⌊q⌋ + 1
  else if ⌊q⌋ % 2 = 0 then ⌊q⌋ else ⌊q⌋ + 1

/-- Python `round(x, n)` on exact decimals. -/
def pyRoundN (n : ℕ) (q : ℚ) : ℚ := (pyRoundInt (q * 10 ^ n) : ℚ) / 10 ^ n

def pyRound2 (q : ℚ) : ℚ := pyRoundN 2 q

def pyRound4 (q : ℚ) : ℚ := pyRoundN 4 q

/-! ## Civil dates (`datetime.date` at day granularity) -/

structure PyDate where
  y : ℤ
  m : ℤ
  d : ℤ
  deriving Repr, DecidableEq

def isLeap (y : ℤ) : Bool := (y % 4 == 0 && y % 100 != 0) || y % 400 == 0

def daysInMonth (y : ℤ) (m : ℤ) : ℤ :=
  if m == 2 then (if isLeap y then 29 else 28)
  else if m == 4 || m == 6 || m == 9 || m == 11 then 30
  else 31

/-- Days since 1970-01-01 of a civil date (standard civil-from-days
inverse; all divisions below act on non-negative operands for the years
the data can contain). -/
def PyDate.days (dt : PyDate) : ℤ :=
  let y' := if dt.m ≤ 2 then dt.y - 1 else dt.y
  let era := (if 0 ≤ y' then y' else y' - 399) / 400
  let yoe := y' - era * 400
  let mp := (dt.m + 9) % 12
  let doy := (153 * mp + 2) / 5 + dt.d - 1
  let doe := yoe * 365 + yoe / 4 - yoe / 100 + doy
  era * 146097 + doe - 719468

def PyDate.leD (a b : PyDate) : Bool := decide (a.days ≤ b.days)

/-! ## Routing Engine (`tools.py` lines 41-55) -/

def CALIFORNIA_STATES : List String :=
  ["CALIFORNIA", "OREGON", "WASHINGTON", "IDAHO", "CA", "OR", "WA", "ID"]

def HOUSTON_STATES : List String := ["TEXAS", "TX"]

/-- `get_warehouse_for_state` from `tools.py`. -/
def get_warehouse_for_state (state : String) : String :=
  if pyStrip (pyUpper state) ∈ CALIFORNIA_STATES then "California"
  else if pyStrip (pyUpper state) ∈ HOUSTON_STATES then "Houston"
  else "West Memphis"

/-! ## Cost reference data (`tools.py` lines 1302-1357) -/

structure RateTable where
  rates : List (String × ℚ)
  dflt : ℚ
  deriving Repr, DecidableEq

def houstonRates : RateTable :=
  ⟨[("TX", 0.0277), ("AR", 0.0344), ("LA", 0.0450), ("OK", 0.0550),
    ("MO", 0.0677), ("NE", 0.0713), ("KS", 0.0650),
    ("VA", 0.1184), ("MA", 0.1390), ("NY", 0.1712), ("PA", 0.1100),
    ("NC", 0.1050), ("GA", 0.0950), ("FL", 0.1100)], 0.0850⟩

def westMemphisRates : RateTable :=
  ⟨[("TN", 0.0350), ("AR", 0.0375), ("MS", 0.0400), ("AL", 0.0375),
    ("KY", 0.0450), ("IN", 0.0524), ("OH", 0.0673), ("WI", 0.0706),
    ("IL", 0.0773), ("MO", 0.0550), ("NC", 0.0800), ("VA", 0.0836),
    ("GA", 0.0750), ("FL", 0.0900), ("MN", 0.0970), ("PA", 0.1001),
    ("TX", 0.1042), ("NY", 0.1100), ("NJ", 0.1050)], 0.0963⟩

def californiaRates : RateTable :=
  ⟨[("CA", 0.0247), ("NV", 0.0450), ("AZ", 0.0645), ("OR", 0.0850),
    ("WA", 0.0900), ("UT", 0.0909), ("CO", 0.1000), ("ID", 0.1368),
    ("TX", 0.1520), ("NC", 0.1611), ("IL", 0.1669), ("FL", 0.1720),
    ("VA", 0.1650), ("NY", 0.1750), ("PA", 0.1700), ("GA", 0.1600)], 0.1200⟩

def COST_RATES : List (String × RateTable) :=
  [("Houston", houstonRates), ("West Memphis", westMemphisRates),
   ("California", californiaRates)]

def TRANSPORT_MODIFIERS : List (String × ℚ) :=
  [("Closed", 0.89), ("Flatbed", 1.00), ("LTL", 1.68), ("Hot Shot", 3.87)]

def LBS_PER_PALLET : ℚ := 920

def STATE_ABBREV : List (String × String) :=
  [("ALABAMA", "AL"), ("ALASKA", "AK"), ("ARIZONA", "AZ"), ("ARKANSAS", "AR"),
   ("CALIFORNIA", "CA"), ("COLORADO", "CO"), ("CONNECTICUT", "CT"), ("DELAWARE", "DE"),
   ("FLORIDA", "FL"), ("GEORGIA", "GA"), ("HAWAII", "HI"), ("IDAHO", "ID"),
   ("ILLINOIS", "IL"), ("INDIANA", "IN"), ("IOWA", "IA"), ("KANSAS", "KS"),
   ("KENTUCKY", "KY"), ("LOUISIANA", "LA"), ("MAINE", "ME"), ("MARYLAND", "MD"),
   ("MASSACHUSETTS", "MA"), ("MICHIGAN", "MI"), ("MINNESOTA", "MN"), ("MISSISSIPPI", "MS"),
   ("MISSOURI", "MO"), ("MONTANA", "MT"), ("NEBRASKA", "NE"), ("NEVADA", "NV"),
   ("NEW HAMPSHIRE", "NH"), ("NEW JERSEY", "NJ"), ("NEW MEXICO", "NM"), ("NEW YORK", "NY"),
   ("NORTH CAROLINA", "NC"), ("NORTH DAKOTA", "ND"), ("OHIO", "OH"), ("OKLAHOMA", "OK"),
   ("OREGON", "OR"), ("PENNSYLVANIA", "PA"), ("RHODE ISLAND", "RI"), ("SOUTH CAROLINA", "SC"),
   ("SOUTH DAKOTA", "SD"), ("TENNESSEE", "TN"), ("TEXAS", "TX"), ("UTAH", "UT"),
   ("VERMONT", "VT"), ("VIRGINIA", "VA"), ("WASHINGTON", "WA"), ("WEST VIRGINIA", "WV"),
   ("WISCONSIN", "WI"), ("WYOMING", "WY")]

/-- `normalize_state` from `tools.py`. -/
def normalize_state (state : String) : String :=
  if (pyStrip (pyUpper state)).length = 2 then pyStrip (pyUpper state)
  else
    match STATE_ABBREV.lookup (pyStrip (pyUpper state)) with
    | some ab => ab
    | none => ⟨(pyStrip (pyUpper state)).data.take 2⟩

/-- `get_cost_rate` from `tools.py`. -/
def get_cost_rate (warehouse state : String) : ℚ :=
  let state_abbr := normalize_state state
  let warehouse_rates := (COST_RATES.lookup warehouse).getD westMemphisRates
  (warehouse_rates.rates.lookup state_abbr).getD warehouse_rates.dflt

/-! ## `estimate_shipping_cost` (`tools.py` lines 1375-1442) -/

def warehouse_map : List (String × String) :=
  [("houston", "Houston"), ("west memphis", "West Memphis"), ("wm", "West Memphis"),
   ("california", "California"), ("stockton", "California"), ("ca", "California")]

/-- Canonical warehouse name used by `estimate_shipping_cost`. -/
def canonWarehouse (from_warehouse : String) : String :=
  (warehouse_map.lookup (pyLower from_warehouse)).getD from_warehouse

/-- The transport modifier actually applied by `estimate_shipping_cost`
(`TRANSPORT_MODIFIERS.get(transport_type.title(), 1.0)`). -/
def transportModifierOf (transport_type : Option String) : ℚ :=
  match transport_type with
  | none => 1
  | some t => if t.isEmpty then 1 else (TRANSPORT_MODIFIERS.lookup (pyTitle t)).getD 1

/-- The `$/lb` rate after the transport modifier, as computed by
`estimate_shipping_cost`. -/
def adjusted_rate_of (from_warehouse to_state : String) (transport_type : Option String) : ℚ :=
  get_cost_rate (canonWarehouse from_warehouse) (normalize_state to_state) *
    transportModifierOf transport_type

structure CostEstimate where
  total_cost : ℚ
  cost_per_lb : ℚ
  cost_per_pallet : ℚ
  weight_lbs : ℚ
  pallets : ℚ
  from_warehouse : String
  to_state : String
  confidence : String
  deriving Repr, DecidableEq

inductive EstimateResult where
  | err : EstimateResult
  | ok : CostEstimate → EstimateResult
  deriving Repr, DecidableEq

/-- `estimate_shipping_cost` from `tools.py` (report fields the spec
talks about; the free-text note and the vs-average comparison strings are
presentation only). -/
def estimate_shipping_cost (from_warehouse to_state : String)
    (weight_lbs pallets : Option ℚ) (transport_type : Option String) : EstimateResult :=
  let w? : Option ℚ :=
    match weight_lbs, pallets with
    | some w, _ => some w
    | none, some p => some (p * LBS_PER_PALLET)
    | none, none => none
  match w? with
  | none => .err
  | some w =>
    let calculated_pallets := w / LBS_PER_PALLET
    let state_abbr := normalize_state to_state
    let warehouse := canonWarehouse from_warehouse
    let modifier := transportModifierOf transport_type
    let base_rate := get_cost_rate warehouse state_abbr
    let adjusted_rate := base_rate * modifier
    let estimated_cost := w * adjusted_rate
    .ok
      { total_cost := pyRound2 estimated_cost
        cost_per_lb := pyRound4 adjusted_rate
        cost_per_pallet := pyRound2 (LBS_PER_PALLET * adjusted_rate)
        weight_lbs := pyRoundN 0 w
        pallets := pyRoundN 1 calculated_pallets
        from_warehouse := warehouse
        to_state := state_abbr
        confidence :=
          if (((COST_RATES.lookup warehouse).getD ⟨[], 0⟩).rates.lookup state_abbr).isSome
          then "HIGH" else "MEDIUM" }

def EstimateResult.totalCost : EstimateResult → Option ℚ
  | .err => none
  | .ok c => some c.total_cost

def EstimateResult.toState : EstimateResult → Option String
  | .err => none
  | .ok c => some c.to_state

def EstimateResult.conf : EstimateResult → Option String
  | .err => none
  | .ok c => some c.confidence

/-! ## Distance Optimizer cost model (`google_maps.py` lines 49-66, 130-144,
284-319).  Note this module carries its own `COST_RATES` table, distinct
from the one in `tools.py`. -/

def gmHoustonRates : RateTable :=
  ⟨[("TX", 0.0277), ("LA", 0.0550), ("OK", 0.0700), ("AR", 0.0650), ("NM", 0.0850),
    ("MS", 0.0700), ("AL", 0.0850), ("TN", 0.0900), ("GA", 0.0950), ("FL", 0.1100)],
   0.0850⟩

def gmWestMemphisRates : RateTable :=
  ⟨[("TN", 0.0350), ("AR", 0.0375), ("MS", 0.0400), ("AL", 0.0375), ("KY", 0.0450),
    ("IN", 0.0524), ("OH", 0.0673), ("IL", 0.0773), ("MO", 0.0550), ("VA", 0.0836),
    ("NC", 0.0800), ("GA", 0.0750), ("FL", 0.0900), ("TX", 0.1042), ("PA", 0.1001)],
   0.0925⟩

def gmCaliforniaRates : RateTable :=
  ⟨[("CA", 0.0247), ("NV", 0.0450), ("AZ", 0.0645), ("OR", 0.0850), ("WA", 0.0900),
    ("UT", 0.0909), ("CO", 0.1000), ("ID", 0.1368), ("TX", 0.1520)], 0.1200⟩

def gmCOST_RATES : List (String × RateTable) :=
  [("Houston", gmHoustonRates), ("West Memphis", gmWestMemphisRates),
   ("California", gmCaliforniaRates)]

/-- The `$/lb` rate used by `google_maps.get_state_based_cost`
(state merely uppercased, warehouse falling back to West Memphis). -/
def gmRate (warehouse state : String) : ℚ :=
  let rates := (gmCOST_RATES.lookup warehouse).getD gmWestMemphisRates
  (rates.rates.lookup (pyUpper state)).getD rates.dflt

/-- The confidence label of `google_maps.get_state_based_cost`. -/
def gmConfidence (warehouse state : String) : String :=
  let rates := (gmCOST_RATES.lookup warehouse).getD gmWestMemphisRates
  if (rates.rates.lookup (pyUpper state)).isSome then "HIGH" else "MEDIUM"

structure GmStateCost where
  rate_per_lb : ℚ
  estimated_cost : ℚ
  cost_per_pallet : ℚ
  confidence : String
  deriving Repr, DecidableEq

/-- `get_state_based_cost` from `google_maps.py`. -/
def get_state_based_cost (warehouse state : String) (weight_lbs : ℚ) : GmStateCost :=
  { rate_per_lb := gmRate warehouse state
    estimated_cost := pyRound2 (weight_lbs * gmRate warehouse state)
    cost_per_pallet := pyRound2 (920 * gmRate warehouse state)
    confidence := gmConfidence warehouse state }

structure GmCostAnalysis where
  blended_cost : ℚ
  distance_cost : ℚ
  historical_cost : ℚ
  primary_method : String
  cost_per_mile : ℚ
  cost_per_lb : ℚ
  confidence : String
  deriving Repr, DecidableEq

/-- `estimate_shipping_cost` from `google_maps.py` (the Distance
Optimizer cost blend). -/
def gmMileRate (weight_lbs : ℚ) : ℚ :=
  if weight_lbs < 10000 then 3.50 * 1.5
  else if weight_lbs < 20000 then 3.50 * 1.2
  else 3.50

def gm_estimate_shipping_cost (warehouse : String) (miles weight_lbs : ℚ)
    (state : String) : GmCostAnalysis :=
  let rate_per_mile : ℚ := gmMileRate weight_lbs
  let distance_cost := miles * rate_per_mile
  let historical := get_state_based_cost warehouse state weight_lbs
  let historical_cost := historical.estimated_cost
  if historical.confidence = "HIGH" then
    { blended_cost := pyRound2 (historical_cost * 0.7 + distance_cost * 0.3)
      distance_cost := pyRound2 distance_cost
      historical_cost := pyRound2 historical_cost
      primary_method := "historical"
      cost_per_mile := pyRound2 rate_per_mile
      cost_per_lb := historical.rate_per_lb
      confidence := historical.confidence }
  else
    { blended_cost := pyRound2 (distance_cost * 0.7 + historical_cost * 0.3)
      distance_cost := pyRound2 distance_cost
      historical_cost := pyRound2 historical_cost
      primary_method := "distance"
      cost_per_mile := pyRound2 rate_per_mile
      cost_per_lb := historical.rate_per_lb
      confidence := historical.confidence }

/-! ## Date-string parsing used by the search tools -/

def natOfDigits (l : List Char) : ℕ :=
  l.foldl (fun a c => 10 * a + (c.toNat - 48)) 0

def allDigits (l : List Char) : Bool := !l.isEmpty && l.all Char.isDigit

/-- A run of digits of bounded width (a `strptime` numeric field). -/
def fieldNat (minLen maxLen : ℕ) (l : List Char) : Option ℕ :=
  if allDigits l && decide (minLen ≤ l.length) && decide (l.length ≤ maxLen)
  then some (natOfDigits l) else none

/-- A calendar-valid date (what `datetime` construction accepts). -/
def mkDate (y m d : ℤ) : Option PyDate :=
  if 1 ≤ m ∧ m ≤ 12 ∧ 1 ≤ d ∧ d ≤ daysInMonth y m then some ⟨y, m, d⟩ else none

inductive DOrder where
  | mdy
  | ymd
  | dmy
  deriving Repr, DecidableEq

/-- `datetime.strptime` for the three-field formats the source uses
(`%m/%d/%Y`, `%Y-%m-%d`, `%d/%m/%Y`, `%m-%d-%Y`): month/day are 1-2
digit fields, year exactly 4 digits, and the whole date must be
calendar-valid. -/
def strptime3 (sep : Char) (ord : DOrder) (s : String) : Option PyDate :=
  match pySplitChar sep s with
  | [a, b, c] =>
    match ord with
    | .mdy => do
      let m ← fieldNat 1 2 a.data
      let d ← fieldNat 1 2 b.data
      let y ← fieldNat 4 4 c.data
      mkDate y m d
    | .ymd => do
      let y ← fieldNat 4 4 a.data
      let m ← fieldNat 1 2 b.data
      let d ← fieldNat 1 2 c.data
      mkDate y m d
    | .dmy => do
      let d ← fieldNat 1 2 a.data
      let m ← fieldNat 1 2 b.data
      let y ← fieldNat 4 4 c.data
      mkDate y m d
  | _ => none

/-- The `month_names` dict of `search_freight`, in insertion order. -/
def monthNamesOrdered : List (String × ℤ) :=
  [("january", 1), ("february", 2), ("march", 3), ("april", 4),
   ("may", 5), ("june", 6), ("july", 7), ("august", 8),
   ("september", 9), ("october", 10), ("november", 11), ("december", 12),
   ("jan", 1), ("feb", 2), ("mar", 3), ("apr", 4), ("jun", 6),
   ("jul", 7), ("aug", 8), ("sep", 9), ("sept", 9), ("oct", 10),
   ("nov", 11), ("dec", 12)]

/-- First month name occurring as a substring (the source's dict loop
with `break`). -/
def findMonth : List (String × ℤ) → String → Option (String × ℤ)
  | [], _ => none
  | (n, v) :: rest, s => if strHasSub s n then some (n, v) else findMonth rest s

/-- `re.search(r"20\d\d", s)`: first such four-character run. -/
def findYear20 : List Char → Option ℤ
  | [] => none
  | c1 :: rest =>
    match rest with
    | c2 :: c3 :: c4 :: _ =>
      if c1 == '2' && c2 == '0' && c3.isDigit && c4.isDigit then
        some (2000 + 10 * ((c3.toNat : ℤ) - 48) + ((c4.toNat : ℤ) - 48))
      else findYear20 rest
    | _ => none

/-- Year and month of the month preceding `today`
(`today.replace(day=1) - 1 day`). -/
def prevMonthOf (t : PyDate) : ℤ × ℤ :=
  if t.m = 1 then (t.y - 1, 12) else (t.y, t.m - 1)

/-! ## `search_freight` (`tools.py` lines 956-1256) -/

structure FRow where
  shipDate : Option PyDate
  dest : String
  weight : ℚ
  warehouse : String
  cost : ℚ
  deriving Repr, DecidableEq

/-- Derived column `state`: `destination.str.strip().str[-2:].str.upper()`. -/
def FRow.state (r : FRow) : String := pyUpper (lastTwo (pyStrip r.dest))

/-- Derived column `customer`: `destination.str.split('-').str[0].str.strip()`. -/
def FRow.customer (r : FRow) : String := pyStrip ((pySplitChar '-' r.dest).headD "")

/-- Derived column `city_state`: `destination.str.split('-').str[-1].str.strip()`. -/
def FRow.cityState (r : FRow) : String := pyStrip ((pySplitChar '-' r.dest).getLastD "")

/-- The `filters_applied` entries, as structured data instead of the
source's formatted strings. -/
inductive FilterLabel where
  | warehouseIs (w : String)
  | stateIs (s : String)
  | exactMatch (d : String)
  | customerAndLocation (c l : String)
  | customerContains (c : String)
  | locationContains (l : String)
  | destinationContains (d : String)
  | cityContains (c : String)
  | wordMatch (w : String)
  | monthYear (name : String) (y : ℤ)
  | lastMonthLbl
  | monthToken (s : String)
  | dateIs (d : PyDate)
  | expandedSearch (d : PyDate)
  deriving Repr, DecidableEq

/-- The `smart_notes` entries, as structured data carrying exactly the
values interpolated into the source's message strings. -/
inductive SmartNote where
  | customerButNotLocation (c l : String) (n : ℕ)
  | customerShippedTo (c : String) (locs : List String)
  | noCustomerShowingLocation (c l : String)
  | fuzzyWordMatch (dest word : String)
  | noShipmentsOn (d : PyDate)
  | foundHistorical (n : ℕ)
  | closestDate (d : PyDate)
  deriving Repr, DecidableEq

structure DestOut where
  rows : List FRow
  labels : List FilterLabel
  notes : List SmartNote
  deriving Repr, DecidableEq

/-- Strategy 6 of the destination cascade: first query token of length
≥ 3 matching any destination (the source's `for word in words` loop). -/
def wordScan : List String → List FRow → Option (List FRow × String)
  | [], _ => none
  | w :: ws, df =>
    if 3 ≤ w.length then
      let pm := df.filter (fun r => strHasSub (pyUpper r.dest) w)
      if pm = [] then wordScan ws df else some (pm, w)
    else wordScan ws df

/-- The SMART DESTINATION SEARCH cascade of `search_freight`
(`tools.py` lines 1008-1087).  When no strategy matches, the frame is
returned unfiltered. -/
def destCascade (destination : String) (df : List FRow) : DestOut :=
  let du := pyStrip (pyUpper destination)
  if du.length = 2 then
    ⟨df.filter (fun r => r.state == du), [.stateIs du], []⟩
  else if strHasSub du "-" then
    let parts := pySplitChar '-' du
    let search_customer := pyStrip (parts.headD "")
    let search_location := pyStrip (String.intercalate "-" parts.tail)
    let exact := df.filter (fun r => strHasSub (pyUpper r.dest) du)
    if exact ≠ [] then ⟨exact, [.exactMatch destination], []⟩
    else
      let customer_match := df.filter (fun r => strHasSub (pyUpper r.customer) search_customer)
      if customer_match ≠ [] then
        let location_match := customer_match.filter
          (fun r => strHasSub (pyUpper r.cityState) (removeSpaces search_location))
        if location_match ≠ [] then
          ⟨location_match, [.customerAndLocation search_customer search_location], []⟩
        else
          ⟨customer_match, [.customerContains search_customer],
           [.customerButNotLocation search_customer search_location customer_match.length,
            .customerShippedTo search_customer
              (((dedupFirst (customer_match.map FRow.dest)).take 5).map lastFifteen)]⟩
      else
        let location_match := df.filter (fun r => strHasSub (pyUpper r.dest) search_location)
        if location_match ≠ [] then
          ⟨location_match, [.locationContains search_location],
           [.noCustomerShowingLocation search_customer search_location]⟩
        else ⟨df, [], []⟩
  else
    let customer_match := df.filter (fun r => strHasSub (pyUpper r.customer) du)
    if customer_match ≠ [] then ⟨customer_match, [.customerContains destination], []⟩
    else
      let dest_match := df.filter (fun r => strHasSub (pyUpper r.dest) du)
      if dest_match ≠ [] then ⟨dest_match, [.destinationContains destination], []⟩
      else
        let city_match := df.filter (fun r => strHasSub (pyUpper r.cityState) du)
        if city_match ≠ [] then ⟨city_match, [.cityContains destination], []⟩
        else
          match wordScan (pyWords du) df with
          | some (pm, w) => ⟨pm, [.wordMatch w], [.fuzzyWordMatch destination w]⟩
          | none => ⟨df, [], []⟩

/-- Date parsing of `search_freight` (`tools.py` lines 1093-1152),
returning the inclusive civil-day range and the applied filter label.
A month name found without a `20\d\d` year leaves `start_date` unset and
falls through to the non-month branches, as in the source. -/
def parseFreightDate (today : PyDate) (date_range : String)
    : Option (PyDate × PyDate × FilterLabel) :=
  let date_lower := pyStrip (pyLower date_range)
  let monthHit :=
    match findMonth monthNamesOrdered date_lower with
    | some (name, mnum) =>
      match findYear20 date_range.data with
      | some y => some (⟨y, mnum, 1⟩, ⟨y, mnum, daysInMonth y mnum⟩,
          FilterLabel.monthYear name y)
      | none => none
    | none => none
  match monthHit with
  | some r => some r
  | none =>
    if date_lower = "last_month" then
      let (py, pm) := prevMonthOf today
      some (⟨py, pm, 1⟩, ⟨py, pm, daysInMonth py pm⟩, .lastMonthLbl)
    else if strHasSub date_range "-" && date_range.length == 7 then
      match strptime3 '-' .ymd (date_range ++ "-01") with
      | some d => some (d, ⟨d.y, d.m, daysInMonth d.y d.m⟩, .monthToken date_range)
      | none => none
    else
      match strptime3 '/' .mdy date_range with
      | some d => some (d, d, .dateIs d)
      | none =>
        match strptime3 '-' .ymd date_range with
        | some d => some (d, d, .dateIs d)
        | none =>
          match strptime3 '/' .dmy date_range with
          | some d => some (d, d, .dateIs d)
          | none => none

/-- `(df['ship_date'] >= start) & (df['ship_date'] <= end)`; a `NaT`
ship date never satisfies the comparison. -/
def inDateRange (s e : PyDate) (r : FRow) : Bool :=
  match r.shipDate with
  | some d => decide (s.days ≤ d.days) && decide (d.days ≤ e.days)
  | none => false

def insertByDays (x : PyDate) : List PyDate → List PyDate
  | [] => [x]
  | y :: ys => if x.days ≤ y.days then x :: y :: ys else y :: insertByDays x ys

/-- Ascending sort of ship dates (`sort_values()`). -/
def sortByDays (l : List PyDate) : List PyDate := l.foldr insertByDays []

/-- `min(actual_dates, key=lambda x: abs((x - search_date).days))`:
first minimiser in iteration order. -/
def minByAbsDays (s : PyDate) : List PyDate → Option PyDate
  | [] => none
  | d :: ds => some (ds.foldl
      (fun b x => if (x.days - s.days).natAbs < (b.days - s.days).natAbs then x else b) d)

/-- Empty-result destination suggestions (`tools.py` lines 1180-1190).
The source materialises `list(set(...))[:5]`, whose order is
unspecified; modelled as first-occurrence order. -/
def suggestFor (destination? : Option String) (df_full : List FRow) : List String :=
  match destination? with
  | none => []
  | some dstr =>
    let all_d := dedupFirst (df_full.map FRow.dest)
    let du := pyUpper dstr
    let words := (pyWords du).filter (fun w => 3 ≤ w.length)
    (dedupFirst (all_d.filter (fun d => words.any (fun w => strHasSub (pyUpper d) w)))).take 5

inductive FreightResult where
  | loadError
  | emptyRes (filters : List FilterLabel) (suggestions : List String) (notes : List SmartNote)
  | statsRes (filters : List FilterLabel) (total_shipments : ℕ) (total_weight : ℤ)
      (total_cost : ℚ) (notes : List SmartNote)
  deriving Repr, DecidableEq

def sumWeights (df : List FRow) : ℚ := (df.map (fun r => r.weight)).sum

def sumCosts (df : List FRow) : ℚ := (df.map (fun r => r.cost)).sum

/-- Final packaging of `search_freight` (empty-result message with
suggestions, or the aggregate summary; per-warehouse breakdown, top
destinations and row samples are presentation only). -/
def finalizeFreight (df_full : List FRow) (destination? : Option String)
    (labels : List FilterLabel) (notes : List SmartNote) (df : List FRow) : FreightResult :=
  if df = [] then .emptyRes labels (suggestFor destination? df_full) notes
  else .statsRes labels df.length (pyInt (sumWeights df)) (pyRound2 (sumCosts df)) notes

/-- Which filter labels render with the word `date` (the expansion
step drops them from `filters_applied`). -/
def isDateLabel : FilterLabel → Bool
  | .dateIs _ => true
  | _ => false

/-- Python truthiness of an optional string argument. -/
def truthy (o : Option String) : Option String :=
  match o with
  | some s => if s = "" then none else some s
  | none => none

/-- SMART WAREHOUSE FILTER of `search_freight`. -/
def whFilter (warehouse : String) (rows : List FRow) : List FRow :=
  if pyLower warehouse == "all" then rows
  else rows.filter (fun r => strHasSub (pyLower r.warehouse) (pyLower warehouse))

def whLabels (warehouse : String) : List FilterLabel :=
  if pyLower warehouse == "all" then [] else [.warehouseIs warehouse]

/-- `search_freight` from `tools.py`. -/
def search_freight (today : PyDate) (warehouse : String)
    (date_range destination : Option String) (rows : List FRow) : FreightResult :=
  if rows = [] then .loadError
  else
    let df0 := whFilter warehouse rows
    let dc : DestOut :=
      match truthy destination with
      | none => ⟨df0, [], []⟩
      | some dstr => destCascade dstr df0
    let haveDest := (truthy destination).isSome
    let labels1 := whLabels warehouse ++ dc.labels
    match (truthy date_range).bind (parseFreightDate today) with
    | none => finalizeFreight rows (truthy destination) labels1 dc.notes dc.rows
    | some (s, e, lbl) =>
      let df2 := dc.rows.filter (inDateRange s e)
      if df2 = [] ∧ haveDest = true ∧ dc.rows ≠ [] then
        match minByAbsDays s (sortByDays (dc.rows.filterMap FRow.shipDate)) with
        | some closest =>
          finalizeFreight rows (truthy destination)
            (((labels1 ++ [lbl]).filter (fun l => !isDateLabel l)) ++ [.expandedSearch s])
            (dc.notes ++ [.noShipmentsOn s, .foundHistorical dc.rows.length,
              .closestDate closest])
            dc.rows
        | none => finalizeFreight rows (truthy destination) (labels1 ++ [lbl]) dc.notes df2
      else finalizeFreight rows (truthy destination) (labels1 ++ [lbl]) dc.notes df2

def FreightResult.totalShipments : FreightResult → ℕ
  | .statsRes _ n _ _ _ => n
  | _ => 0

def FreightResult.totalWeight : FreightResult → ℤ
  | .statsRes _ _ w _ _ => w
  | _ => 0

def FreightResult.smartNotes : FreightResult → List SmartNote
  | .emptyRes _ _ n => n
  | .statsRes _ _ _ _ n => n
  | .loadError => []

def FreightResult.sugg : FreightResult → List String
  | .emptyRes _ s _ => s
  | _ => []

def FreightResult.isStats : FreightResult → Bool
  | .statsRes _ _ _ _ _ => true
  | _ => false

/-- The rows surviving `search_freight`'s date filter (identity when no
date range is given or it fails to parse). -/
def dateFiltered (today : PyDate) (date_range : Option String) (df : List FRow) : List FRow :=
  match (truthy date_range).bind (parseFreightDate today) with
  | none => df
  | some (s, e, _) => df.filter (inDateRange s e)

/-! ## `search_orders` (`tools.py` lines 721-901) -/

structure ORow where
  customer : String
  shipTo : String
  product : String
  state : String
  quantity : ℚ
  orderDate : Option PyDate
  deriving Repr, DecidableEq

inductive OrdLabel where
  | customerContains (c : String)
  | productContains (p : String)
  | stateIs (s : String)
  | lastMonthLbl
  | lastQuarterLbl
  | yearIs (y : ℤ)
  | ytdLbl (y : ℤ)
  | monthToken (s : String)
  | dateIs (d : PyDate)
  deriving Repr, DecidableEq

/-- The 20-entry abbreviation map local to `search_orders`. -/
def ordersStateMap : List (String × String) :=
  [("TX", "TEXAS"), ("CA", "CALIFORNIA"), ("NY", "NEW YORK"), ("FL", "FLORIDA"),
   ("PA", "PENNSYLVANIA"), ("VA", "VIRGINIA"), ("NJ", "NEW JERSEY"), ("NC", "NORTH CAROLINA"),
   ("GA", "GEORGIA"), ("OH", "OHIO"), ("MI", "MICHIGAN"), ("IL", "ILLINOIS"),
   ("WA", "WASHINGTON"), ("OR", "OREGON"), ("AZ", "ARIZONA"), ("CO", "COLORADO"),
   ("MA", "MASSACHUSETTS"), ("MD", "MARYLAND"), ("MN", "MINNESOTA"), ("LA", "LOUISIANA")]

/-- Date parsing of `search_orders` (`tools.py` lines 779-834): relative
keywords, bare 4-digit year, `YYYY-MM`, then the four specific formats,
returning the inclusive civil-day range and the applied label, or `none`
on total parse failure. -/
def parseOrdersDate (today : PyDate) (date_range : String)
    : Option (PyDate × PyDate × OrdLabel) :=
  let dl := pyLower date_range
  if dl = "last_month" then
    let (py, pm) := prevMonthOf today
    some (⟨py, pm, 1⟩, ⟨py, pm, daysInMonth py pm⟩, .lastMonthLbl)
  else if dl = "last_quarter" then
    let cq := (today.m - 1) / 3
    if cq = 0 then
      some (⟨today.y - 1, 10, 1⟩, ⟨today.y - 1, 12, 31⟩, .lastQuarterLbl)
    else
      let sm := (cq - 1) * 3 + 1
      let em := cq * 3
      some (⟨today.y, sm, 1⟩, ⟨today.y, em, daysInMonth today.y em⟩, .lastQuarterLbl)
  else if dl = "last_year" then
    some (⟨today.y - 1, 1, 1⟩, ⟨today.y - 1, 12, 31⟩, .yearIs (today.y - 1))
  else if dl = "ytd" then
    some (⟨today.y, 1, 1⟩, today, .ytdLbl today.y)
  else if allDigits date_range.data && date_range.length == 4 then
    let y : ℤ := natOfDigits date_range.data
    some (⟨y, 1, 1⟩, ⟨y, 12, 31⟩, .yearIs y)
  else if strHasSub date_range "-" && date_range.length == 7 then
    match strptime3 '-' .ymd (date_range ++ "-01") with
    | some d => some (d, ⟨d.y, d.m, daysInMonth d.y d.m⟩, .monthToken date_range)
    | none => none
  else
    match strptime3 '/' .mdy date_range with
    | some d => some (d, d, .dateIs d)
    | none =>
      match strptime3 '-' .ymd date_range with
      | some d => some (d, d, .dateIs d)
      | none =>
        match strptime3 '/' .dmy date_range with
        | some d => some (d, d, .dateIs d)
        | none =>
          match strptime3 '-' .mdy date_range with
          | some d => some (d, d, .dateIs d)
          | none => none

def inORange (s e : PyDate) (r : ORow) : Bool :=
  match r.orderDate with
  | some d => decide (s.days ≤ d.days) && decide (d.days ≤ e.days)
  | none => false

def SUPPORTED_DATE_FORMATS : List String :=
  ["last_month", "last_quarter", "last_year", "ytd", "2024", "2024-06", "01/15/2024"]

inductive OrdersResult where
  | loadError
  | dateError (supported_formats : List String)
  | noMatch (filters : List OrdLabel)
  | statsRes (filters : List OrdLabel) (total_orders : ℕ) (total_quantity : ℤ)
  deriving Repr, DecidableEq

def sumOQty (l : List ORow) : ℚ := (l.map (fun r => r.quantity)).sum

def finalizeOrders (labels : List OrdLabel) (df : List ORow) : OrdersResult :=
  if df = [] then .noMatch labels
  else .statsRes labels df.length (pyInt (sumOQty df))

/-- `search_orders` from `tools.py` (summary fields; top-5 lists and
sample rows are presentation only). -/
def search_orders (today : PyDate) (customer product state date_range : Option String)
    (rows : List ORow) : OrdersResult :=
  if rows = [] then .loadError
  else
    let step1 : List ORow × List OrdLabel :=
      match truthy customer with
      | none => (rows, [])
      | some c =>
        (rows.filter (fun r =>
            strHasSub (pyUpper r.customer) (pyUpper c) ||
            strHasSub (pyUpper r.shipTo) (pyUpper c)),
         [.customerContains c])
    let step2 : List ORow × List OrdLabel :=
      match truthy product with
      | none => step1
      | some p =>
        (step1.1.filter (fun r => strHasSub (pyUpper r.product) (pyUpper p)),
         step1.2 ++ [.productContains p])
    let step3 : List ORow × List OrdLabel :=
      match truthy state with
      | none => step2
      | some st =>
        let su := pyStrip (pyUpper st)
        let full := (ordersStateMap.lookup su).getD su
        (step2.1.filter (fun r => pyUpper r.state == full), step2.2 ++ [.stateIs st])
    match truthy date_range with
    | none => finalizeOrders step3.2 step3.1
    | some dr =>
      match parseOrdersDate today dr with
      | some (s, e, lbl) => finalizeOrders (step3.2 ++ [lbl]) (step3.1.filter (inORange s e))
      | none =>
        if step3.2 = [] then .dateError SUPPORTED_DATE_FORMATS
        else finalizeOrders step3.2 step3.1

def OrdersResult.isDateError : OrdersResult → Bool
  | .dateError _ => true
  | _ => false

/-! ## Sales rows shared by `forecast_demand` and `get_distribution` -/

structure SRow where
  country : String
  state : String
  product : String
  qty : ℚ
  date : Option PyDate
  deriving Repr, DecidableEq

def usaRows (rows : List SRow) : List SRow := rows.filter (fun r => r.country == "USA")

def sumQty (l : List SRow) : ℚ := (l.map (fun r => r.qty)).sum

def minimumDate : List PyDate → Option PyDate
  | [] => none
  | d :: ds => some (ds.foldl (fun b x => if x.days < b.days then x else b) d)

def maximumDate : List PyDate → Option PyDate
  | [] => none
  | d :: ds => some (ds.foldl (fun b x => if b.days < x.days then x else b) d)

/-- Case-insensitive substring product match
(`str.contains(product_name, case=False, na=False)`) over USA rows. -/
def matchedRows (rows : List SRow) (product_name : String) : List SRow :=
  (usaRows rows).filter (fun r => strHasSub (pyUpper r.product) (pyUpper product_name))

/-! ## `forecast_demand` (`tools.py` lines 517-582) -/

/-- `data_months` of `forecast_demand`: the span in calendar months of
the valid parsed dates of the whole USA frame (NOT only the rows
matching the product), with 34 as the fallback when no date column is
usable or no date parses. -/
def dataMonths (hasDateCol : Bool) (rows : List SRow) : ℤ :=
  if hasDateCol then
    let valid := (usaRows rows).filterMap SRow.date
    match minimumDate valid, maximumDate valid with
    | some mn, some mx => max 1 ((mx.y - mn.y) * 12 + (mx.m - mn.m) + 1)
    | _, _ => 34
  else 34

inductive ForecastResult where
  | loadError
  | insufficientData (found : ℕ)
  | ok (predicted_quantity : ℤ) (predicted_orders : ℤ) (monthly_avg_quantity : ℤ)
      (historical_total_quantity : ℤ) (historical_total_orders : ℕ)
      (data_months : ℤ) (confidence : String)
  deriving Repr, DecidableEq

/-- `forecast_demand` from `tools.py`.  `hasDateCol` models whether the
loaded frame has a usable date/created column. -/
def forecast_demand (rows : List SRow) (hasDateCol : Bool)
    (product_name : String) (months : ℤ) : ForecastResult :=
  if rows = [] then .loadError
  else
    let dm := dataMonths hasDateCol rows
    let matched := matchedRows rows product_name
    if matched.length < 5 then .insufficientData matched.length
    else
      let total := sumQty matched
      let monthly_avg_qty := total / (dm : ℚ)
      let monthly_avg_orders := (matched.length : ℚ) / (dm : ℚ)
      .ok (pyInt (monthly_avg_qty * (months : ℚ)))
        (pyInt (monthly_avg_orders * (months : ℚ)))
        (pyInt monthly_avg_qty) (pyInt total) matched.length dm
        (if 50 < matched.length then "HIGH" else "MEDIUM")

def ForecastResult.predictedQty : ForecastResult → Option ℤ
  | .ok p _ _ _ _ _ _ => some p
  | _ => none

/-! ## `get_distribution` (`tools.py` lines 329-412) -/

inductive DistResult where
  | routed (ca hou wm : ℤ) (confidence : String)
  | defaultDist (ca hou wm : ℤ) (confidence : String)
  | hist (ca hou wm : ℤ) (historical_orders : ℕ) (confidence : String)
  deriving Repr, DecidableEq

/-- Historical quantity routed to warehouse `w`
(`product_df.groupby('Warehouse')['Quantity'].sum()` entry). -/
def warehouseQty (w : String) (l : List SRow) : ℚ :=
  sumQty (l.filter (fun r => get_warehouse_for_state r.state == w))

/-- `warehouse_dist.sum()`: the quantities land in exactly the three
warehouse groups, so the grand total is the sum of the three group sums. -/
def histTotal (l : List SRow) : ℚ :=
  warehouseQty "California" l + warehouseQty "Houston" l + warehouseQty "West Memphis" l

/-- `total_qty` after the `if total_qty == 0: total_qty = 1` guard. -/
def histDenom (l : List SRow) : ℚ := if histTotal l = 0 then 1 else histTotal l

/-- `get_distribution` from `tools.py`. -/
def get_distribution (rows : List SRow) (product_name : String) (quantity : ℤ)
    (customer_state : Option String) : DistResult :=
  match truthy customer_state with
  | some cs =>
    let wh := get_warehouse_for_state cs
    .routed (if wh == "California" then quantity else 0)
      (if wh == "Houston" then quantity else 0)
      (if wh == "West Memphis" then quantity else 0) "HIGH"
  | none =>
    if rows = [] then
      .defaultDist (pyInt ((quantity : ℚ) * 0.10)) (pyInt ((quantity : ℚ) * 0.25))
        (pyInt ((quantity : ℚ) * 0.65)) "LOW"
    else
      let matched := matchedRows rows product_name
      if matched.length < 5 then
        .defaultDist (pyInt ((quantity : ℚ) * 0.10)) (pyInt ((quantity : ℚ) * 0.25))
          (pyInt ((quantity : ℚ) * 0.65)) "MEDIUM"
      else
        let dCA := pyInt ((quantity : ℚ) * (warehouseQty "California" matched / histDenom matched))
        let dH := pyInt ((quantity : ℚ) * (warehouseQty "Houston" matched / histDenom matched))
        let dWM := pyInt ((quantity : ℚ) * (warehouseQty "West Memphis" matched / histDenom matched))
        let diff := quantity - (dCA + dH + dWM)
        .hist dCA dH (dWM + diff) matched.length
          (if 20 < matched.length then "HIGH" else "MEDIUM")

def DistResult.caShare : DistResult → ℤ
  | .routed c _ _ _ => c
  | .defaultDist c _ _ _ => c
  | .hist c _ _ _ _ => c

def DistResult.houShare : DistResult → ℤ
  | .routed _ h _ _ => h
  | .defaultDist _ h _ _ => h
  | .hist _ h _ _ _ => h

def DistResult.wmShare : DistResult → ℤ
  | .routed _ _ w _ => w
  | .defaultDist _ _ w _ => w
  | .hist _ _ w _ _ => w

/-! # Theorems -/

/-! ## Shared lemmas -/

theorem pyInt_eq_floor {q : ℚ} (h : 0 ≤ q) : pyInt q = ⌊q⌋ := by
  unfold pyInt
  rw [if_pos h]

theorem pyInt_nonneg {q : ℚ} (h : 0 ≤ q) : 0 ≤ pyInt q := by
  rw [pyInt_eq_floor h]
  exact Int.floor_nonneg.mpr h

theorem sumQty_nonneg {l : List SRow} (h : ∀ r ∈ l, 0 ≤ r.qty) : 0 ≤ sumQty l := by
  unfold sumQty
  refine List.sum_nonneg ?_
  intro x hx
  obtain ⟨r, hr, rfl⟩ := List.mem_map.mp hx
  exact h r hr

theorem insertByDays_ne_nil (x : PyDate) (l : List PyDate) : insertByDays x l ≠ [] := by
  cases l with
  | nil => simp [insertByDays]
  | cons y ys =>
    unfold insertByDays
    split <;> simp

theorem sortByDays_ne_nil {l : List PyDate} (h : l ≠ []) : sortByDays l ≠ [] := by
  cases l with
  | nil => exact absurd rfl h
  | cons a as => exact insertByDays_ne_nil a (sortByDays as)

theorem pyRoundInt_low {q : ℚ} {n : ℤ} (h1 : ⌊q⌋ = n) (h2 : q - (n : ℚ) < 1/2) :
    pyRoundInt q = n := by
  unfold pyRoundInt
  rw [h1, if_pos h2]

theorem pyRoundInt_high {q : ℚ} {n : ℤ} (h1 : ⌊q⌋ = n) (h2 : 1/2 < q - (n : ℚ)) :
    pyRoundInt q = n + 1 := by
  unfold pyRoundInt
  rw [h1, if_neg (by linarith), if_pos h2]

theorem pyRound2_low (q : ℚ) (n : ℤ) (h1 : ⌊q * 100⌋ = n) (h2 : q * 100 - (n : ℚ) < 1/2) :
    pyRound2 q = (n : ℚ) / 100 := by
  unfold pyRound2 pyRoundN
  rw [show ((10 : ℚ) ^ (2 : ℕ)) = 100 from by norm_num, pyRoundInt_low h1 h2]

theorem pyRound2_high (q : ℚ) (n : ℤ) (h1 : ⌊q * 100⌋ = n) (h2 : 1/2 < q * 100 - (n : ℚ)) :
    pyRound2 q = ((n + 1 : ℤ) : ℚ) / 100 := by
  unfold pyRound2 pyRoundN
  rw [show ((10 : ℚ) ^ (2 : ℕ)) = 100 from by norm_num, pyRoundInt_high h1 h2]

/-! ## C2: totality of `get_warehouse_for_state` -/

/-- C2.  `get_warehouse_for_state` is total: after uppercasing and
stripping, inputs in the California group map to `California`, inputs in
the Texas group map to `Houston`, and every other string — recognized or
not — maps to `West Memphis`; the result is always one of the three
warehouses, for any input whatsoever. -/
theorem get_warehouse_for_state_spec (s : String) :
    (get_warehouse_for_state s = "California" ∨ get_warehouse_for_state s = "Houston" ∨
      get_warehouse_for_state s = "West Memphis")
    ∧ (pyStrip (pyUpper s) ∈ CALIFORNIA_STATES → get_warehouse_for_state s = "California")
    ∧ (pyStrip (pyUpper s) ∈ HOUSTON_STATES → get_warehouse_for_state s = "Houston")
    ∧ (pyStrip (pyUpper s) ∉ CALIFORNIA_STATES → pyStrip (pyUpper s) ∉ HOUSTON_STATES →
        get_warehouse_for_state s = "West Memphis") := by
  have hdisj : ∀ x ∈ CALIFORNIA_STATES, x ∉ HOUSTON_STATES := by decide
  by_cases h1 : pyStrip (pyUpper s) ∈ CALIFORNIA_STATES <;>
    by_cases h2 : pyStrip (pyUpper s) ∈ HOUSTON_STATES
  · exact absurd h2 (hdisj _ h1)
  · simp [get_warehouse_for_state, h1, h2]
  · simp [get_warehouse_for_state, h1, h2]
  · simp [get_warehouse_for_state, h1, h2]

theorem get_warehouse_for_state_spec_witness :
    pyStrip (pyUpper "  oregon ") ∈ CALIFORNIA_STATES ∧
    get_warehouse_for_state "  oregon " = "California" :=
  ⟨by decide, (get_warehouse_for_state_spec "  oregon ").2.1 (by decide)⟩

/-! ## C3: the `LTL` transport modifier is unreachable -/

/-- C3.  The modifier table maps `LTL` to 1.68, but
`estimate_shipping_cost` looks the transport type up after `.title()`,
which turns `LTL` into `Ltl`; the documented input `LTL` therefore gets
modifier 1.0: a 1000 lb Houston→TX shipment is priced $27.70 instead of
the $46.54 the table entry dictates.  (`Closed`, `Flatbed`, `Hot Shot`
are fixed points of `.title()` and do hit their entries.) -/
theorem ltl_modifier_unreachable :
    pyTitle "LTL" = "Ltl"
    ∧ TRANSPORT_MODIFIERS.lookup "Ltl" = none
    ∧ TRANSPORT_MODIFIERS.lookup "LTL" = some 1.68
    ∧ transportModifierOf (some "LTL") = 1
    ∧ transportModifierOf (some "Closed") = 0.89
    ∧ transportModifierOf (some "Flatbed") = 1.00
    ∧ transportModifierOf (some "Hot Shot") = 3.87
    ∧ (estimate_shipping_cost "Houston" "TX" (some 1000) none (some "LTL")).totalCost
        = some 27.70
    ∧ pyRound2 (1000 * 0.0277 * 1.68) = 46.54 := by
  refine ⟨rfl, rfl, rfl, rfl, rfl, rfl, rfl, ?_, ?_⟩
  · have h : (estimate_shipping_cost "Houston" "TX" (some 1000) none (some "LTL")).totalCost
        = some (pyRound2 (1000 * ((0.0277 : ℚ) * 1))) := rfl
    rw [h, pyRound2_low _ 2770 (by norm_num) (by norm_num)]
    norm_num
  · rw [pyRound2_high _ 4653 (by norm_num) (by norm_num)]
    norm_num

/-! ## C5: doubling the weight -/

/-- C5 counterexample.  The reported `total_cost` is rounded to cents, so
doubling the weight does not exactly double the report: 0.5 lb
Houston→TX costs $0.01, 1 lb costs $0.03 ≠ 2 × $0.01. -/
theorem estimate_cost_rounding_breaks_doubling :
    (estimate_shipping_cost "Houston" "TX" (some 0.5) none none).totalCost = some 0.01
    ∧ (estimate_shipping_cost "Houston" "TX" (some 1) none none).totalCost = some 0.03
    ∧ ¬ ((0.03 : ℚ) = 2 * 0.01) := by
  refine ⟨?_, ?_, by norm_num⟩
  · have h : (estimate_shipping_cost "Houston" "TX" (some 0.5) none none).totalCost
        = some (pyRound2 ((0.5 : ℚ) * ((0.0277 : ℚ) * 1))) := rfl
    rw [h, pyRound2_low _ 1 (by norm_num) (by norm_num)]
    norm_num
  · have h : (estimate_shipping_cost "Houston" "TX" (some 1) none none).totalCost
        = some (pyRound2 ((1 : ℚ) * ((0.0277 : ℚ) * 1))) := rfl
    rw [h, pyRound2_high _ 2 (by norm_num) (by norm_num)]
    norm_num

/-- C5 amended.  For every warehouse, state, transport type and weight
`w > 0` the pre-rounding estimated cost is exactly `w × adjusted_rate`,
hence doubling the weight exactly doubles it; the reported `total_cost`
is that amount rounded to cents (and only the rounding can break exact
doubling). -/
theorem estimate_cost_linear_before_rounding (wh st : String) (tt : Option String)
    (w : ℚ) (h : 0 < w) :
    (estimate_shipping_cost wh st (some w) none tt).totalCost
        = some (pyRound2 (w * adjusted_rate_of wh st tt))
    ∧ (estimate_shipping_cost wh st (some (2 * w)) none tt).totalCost
        = some (pyRound2 (2 * (w * adjusted_rate_of wh st tt))) := by
  refine ⟨rfl, ?_⟩
  have h2 : (estimate_shipping_cost wh st (some (2 * w)) none tt).totalCost
      = some (pyRound2 (2 * w * adjusted_rate_of wh st tt)) := rfl
  rw [h2, mul_assoc]

theorem estimate_cost_linear_before_rounding_witness :
    (0 : ℚ) < 1 ∧
    ((estimate_shipping_cost "Houston" "TX" (some 1) none none).totalCost
        = some (pyRound2 (1 * adjusted_rate_of "Houston" "TX" none))
     ∧ (estimate_shipping_cost "Houston" "TX" (some (2 * 1)) none none).totalCost
        = some (pyRound2 (2 * (1 * adjusted_rate_of "Houston" "TX" none)))) :=
  ⟨by norm_num, estimate_cost_linear_before_rounding "Houston" "TX" none 1 (by norm_num)⟩

/-! ## C10: silent two-letter truncation of unknown state names -/

/-- C10.  For every state string whose uppercased/stripped form is longer
than two characters and is not a key of `STATE_ABBREV`,
`normalize_state` returns its first two characters; consequently
`estimate_shipping_cost` treats the misspelled `Calfornia` as the state
`CA` and even reports HIGH confidence instead of rejecting the input. -/
theorem normalize_state_truncation (s : String)
    (hlen : 2 < (pyStrip (pyUpper s)).length)
    (hkey : STATE_ABBREV.lookup (pyStrip (pyUpper s)) = none) :
    normalize_state s = ⟨(pyStrip (pyUpper s)).data.take 2⟩
    ∧ (estimate_shipping_cost "California" "Calfornia" (some 1000) none none).toState
        = some "CA"
    ∧ (estimate_shipping_cost "California" "Calfornia" (some 1000) none none).conf
        = some "HIGH" := by
  refine ⟨?_, by decide, by decide⟩
  unfold normalize_state
  rw [if_neg (by omega), hkey]

theorem normalize_state_truncation_witness :
    2 < (pyStrip (pyUpper "Calfornia")).length
    ∧ (normalize_state "Calfornia" = ⟨(pyStrip (pyUpper "Calfornia")).data.take 2⟩
       ∧ (estimate_shipping_cost "California" "Calfornia" (some 1000) none none).toState
          = some "CA"
       ∧ (estimate_shipping_cost "California" "Calfornia" (some 1000) none none).conf
          = some "HIGH") :=
  ⟨by decide, normalize_state_truncation "Calfornia" (by decide) (by decide)⟩

/-! ## C4: the optimizer blend and its reference rates -/

/-- C4 counterexample.  The Distance Optimizer does not use the Cost
Estimation Engine reference table: `google_maps.py` carries its own
`COST_RATES`, and for Houston→LA the optimizer's historical rate is
$0.0550/lb while the Cost Estimation Engine lookup returns $0.0450/lb;
confidences also differ where only one table lists a state (West
Memphis→WI is HIGH for the engine, MEDIUM for the optimizer). -/
theorem optimizer_rate_differs_from_engine :
    gmRate "Houston" "LA" = 0.0550
    ∧ get_cost_rate "Houston" "LA" = 0.0450
    ∧ ¬ gmRate "Houston" "LA" = get_cost_rate "Houston" "LA"
    ∧ (gm_estimate_shipping_cost "Houston" 400 40000 "LA").cost_per_lb = 0.0550
    ∧ gmConfidence "West Memphis" "WI" = "MEDIUM"
    ∧ (estimate_shipping_cost "West Memphis" "WI" (some 1000) none none).conf
        = some "HIGH" := by
  refine ⟨rfl, rfl, ?_, rfl, rfl, rfl⟩
  rw [show gmRate "Houston" "LA" = (0.0550 : ℚ) from rfl,
    show get_cost_rate "Houston" "LA" = (0.0450 : ℚ) from rfl]
  norm_num

/-- C4 amended.  The optimizer's blend uses the rate and confidence of
its own reference table (`google_maps.COST_RATES`, which differs from
the Cost Estimation Engine's table on some pairs), and the blended cost
equals 0.7 × historical + 0.3 × distance when that confidence is HIGH,
otherwise 0.7 × distance + 0.3 × historical (rounded to cents). -/
theorem optimizer_blend_formula (wh st : String) (miles w : ℚ) :
    (gm_estimate_shipping_cost wh miles w st).cost_per_lb = gmRate wh st
    ∧ (gm_estimate_shipping_cost wh miles w st).confidence = gmConfidence wh st
    ∧ (gm_estimate_shipping_cost wh miles w st).blended_cost =
        (if gmConfidence wh st = "HIGH"
         then pyRound2 ((get_state_based_cost wh st w).estimated_cost * 0.7
                + miles * gmMileRate w * 0.3)
         else pyRound2 (miles * gmMileRate w * 0.7
                + (get_state_based_cost wh st w).estimated_cost * 0.3)) := by
  by_cases h : gmConfidence wh st = "HIGH"
  · simp [gm_estimate_shipping_cost, get_state_based_cost, h]
  · simp [gm_estimate_shipping_cost, get_state_based_cost, h]

/-! ## C6: the forecast span and projection formula -/

/-- Six USA sales rows: five match product `WIDGET` (all dated
January 2023), one unmatched row is dated December 2024. -/
def c6data : List SRow :=
  [⟨"USA", "TEXAS", "WIDGET A", 34, some ⟨2023, 1, 10⟩⟩,
   ⟨"USA", "TEXAS", "WIDGET A", 34, some ⟨2023, 1, 11⟩⟩,
   ⟨"USA", "TEXAS", "WIDGET A", 34, some ⟨2023, 1, 12⟩⟩,
   ⟨"USA", "TEXAS", "WIDGET A", 34, some ⟨2023, 1, 13⟩⟩,
   ⟨"USA", "TEXAS", "WIDGET A", 34, some ⟨2023, 1, 14⟩⟩,
   ⟨"USA", "TEXAS", "OTHER", 0, some ⟨2024, 12, 25⟩⟩]

/-- C6 counterexample.  `forecast_demand` computes the months-of-data
span from the dates of the WHOLE USA frame, not from the matched
records: with five matched rows all in 2023-01 (span 1 month, total 170)
and one unmatched row in 2024-12, the code divides by 24 months and
predicts 21, where the claim's formula (total / matched-span × months)
gives 510. -/
theorem forecast_span_uses_unmatched_rows :
    (matchedRows c6data "WIDGET").length = 5
    ∧ dataMonths true c6data = 24
    ∧ dataMonths true (matchedRows c6data "WIDGET") = 1
    ∧ (forecast_demand c6data true "WIDGET" 3).predictedQty = some 21
    ∧ pyInt (170 / (1 : ℚ) * 3) = 510
    ∧ ¬ ((21 : ℤ) = 510) := by
  refine ⟨by decide, by decide, by decide, ?_, ?_, by decide⟩
  · have h : (forecast_demand c6data true "WIDGET" 3).predictedQty
        = some (pyInt (sumQty (matchedRows c6data "WIDGET")
            / ((24 : ℤ) : ℚ) * ((3 : ℤ) : ℚ))) := rfl
    rw [h]
    have hm : matchedRows c6data "WIDGET"
        = [⟨"USA", "TEXAS", "WIDGET A", 34, some ⟨2023, 1, 10⟩⟩,
           ⟨"USA", "TEXAS", "WIDGET A", 34, some ⟨2023, 1, 11⟩⟩,
           ⟨"USA", "TEXAS", "WIDGET A", 34, some ⟨2023, 1, 12⟩⟩,
           ⟨"USA", "TEXAS", "WIDGET A", 34, some ⟨2023, 1, 13⟩⟩,
           ⟨"USA", "TEXAS", "WIDGET A", 34, some ⟨2023, 1, 14⟩⟩] := rfl
    rw [hm]
    have hsum : sumQty
        [(⟨"USA", "TEXAS", "WIDGET A", 34, some ⟨2023, 1, 10⟩⟩ : SRow),
         ⟨"USA", "TEXAS", "WIDGET A", 34, some ⟨2023, 1, 11⟩⟩,
         ⟨"USA", "TEXAS", "WIDGET A", 34, some ⟨2023, 1, 12⟩⟩,
         ⟨"USA", "TEXAS", "WIDGET A", 34, some ⟨2023, 1, 13⟩⟩,
         ⟨"USA", "TEXAS", "WIDGET A", 34, some ⟨2023, 1, 14⟩⟩] = 170 := by
      simp [sumQty]
      norm_num
    rw [hsum]
    rw [pyInt_eq_floor (by norm_num)]
    norm_num
  · rw [pyInt_eq_floor (by norm_num)]
    norm_num

/-- C6 amended.  Given loaded data and at least 5 matches,
`forecast_demand` predicts `int(total ÷ span × months)` where the span
is computed from the valid dates of the WHOLE USA frame (default 34
when no date column is usable), and fewer than 5 matches yields the
insufficient-data error. -/
theorem forecast_projection_formula (rows : List SRow) (hasDateCol : Bool)
    (product_name : String) (months : ℤ) (hrows : rows ≠ []) :
    (¬ (matchedRows rows product_name).length < 5 →
      (forecast_demand rows hasDateCol product_name months).predictedQty
        = some (pyInt (sumQty (matchedRows rows product_name)
            / (dataMonths hasDateCol rows : ℚ) * (months : ℚ))))
    ∧ ((matchedRows rows product_name).length < 5 →
      forecast_demand rows hasDateCol product_name months
        = .insufficientData (matchedRows rows product_name).length) := by
  constructor
  · intro h5
    simp only [forecast_demand]
    rw [if_neg hrows, if_neg h5]
    rfl
  · intro h5
    simp only [forecast_demand]
    rw [if_neg hrows, if_pos h5]

theorem forecast_projection_formula_witness :
    c6data ≠ []
    ∧ ((¬ (matchedRows c6data "WIDGET").length < 5 →
        (forecast_demand c6data true "WIDGET" 3).predictedQty
          = some (pyInt (sumQty (matchedRows c6data "WIDGET")
              / (dataMonths true c6data : ℚ) * ((3 : ℤ) : ℚ))))
      ∧ ((matchedRows c6data "WIDGET").length < 5 →
        forecast_demand c6data true "WIDGET" 3
          = .insufficientData (matchedRows c6data "WIDGET").length)) :=
  ⟨by decide, forecast_projection_formula c6data true "WIDGET" 3 (by decide)⟩

/-! ## C9: the historical distribution partition -/

/-- Five USA rows matching product `P`; the California row carries a
negative quantity (a credit/return), the rest are Texas rows. -/
def c9data : List SRow :=
  [⟨"USA", "CALIFORNIA", "P", -10, none⟩,
   ⟨"USA", "TEXAS", "P", 20, none⟩,
   ⟨"USA", "TEXAS", "P", 0, none⟩,
   ⟨"USA", "TEXAS", "P", 0, none⟩,
   ⟨"USA", "TEXAS", "P", 0, none⟩]

/-- C9 counterexample.  In the historical branch the three shares need
not be non-negative: with 5 matched rows whose California quantities sum
to −10 (Houston 20), requesting 5 units yields California share −5. -/
theorem get_distribution_negative_share :
    (matchedRows c9data "P").length = 5
    ∧ (get_distribution c9data "P" 5 none).caShare = -5
    ∧ (get_distribution c9data "P" 5 none).caShare < 0 := by
  have h1 : matchedRows c9data "P" = c9data := rfl
  have hwCA : warehouseQty "California" c9data = -10 := by
    unfold warehouseQty
    rw [show c9data.filter (fun r => get_warehouse_for_state r.state == "California")
        = [⟨"USA", "CALIFORNIA", "P", -10, none⟩] from rfl]
    simp [sumQty]
  have hwH : warehouseQty "Houston" c9data = 20 := by
    unfold warehouseQty
    rw [show c9data.filter (fun r => get_warehouse_for_state r.state == "Houston")
        = [⟨"USA", "TEXAS", "P", 20, none⟩, ⟨"USA", "TEXAS", "P", 0, none⟩,
           ⟨"USA", "TEXAS", "P", 0, none⟩, ⟨"USA", "TEXAS", "P", 0, none⟩] from rfl]
    simp [sumQty]
  have hwWM : warehouseQty "West Memphis" c9data = 0 := by
    unfold warehouseQty
    rw [show c9data.filter (fun r => get_warehouse_for_state r.state == "West Memphis")
        = ([] : List SRow) from rfl]
    simp [sumQty]
  have hden : histDenom c9data = 10 := by
    unfold histDenom histTotal
    rw [hwCA, hwH, hwWM]
    norm_num
  have hca : (get_distribution c9data "P" 5 none).caShare
      = pyInt (((5 : ℤ) : ℚ) * (warehouseQty "California" (matchedRows c9data "P")
          / histDenom (matchedRows c9data "P"))) := rfl
  have hval : (get_distribution c9data "P" 5 none).caShare = -5 := by
    rw [hca, h1, hwCA, hden]
    rw [show ((5 : ℤ) : ℚ) * (-10 / 10) = ((-5 : ℤ) : ℚ) from by norm_num]
    unfold pyInt
    rw [if_neg (by norm_num), Int.ceil_intCast]
  exact ⟨by decide, hval, by omega⟩

/-- C9 amended.  Whenever the historical branch is taken with a
non-negative requested quantity and non-negative matched row quantities,
the three shares are non-negative, their sum is exactly the requested
quantity, and the truncation remainder is added to the West Memphis
share. -/
theorem get_distribution_hist_partition (rows : List SRow) (product_name : String)
    (quantity : ℤ) (hrows : rows ≠ [])
    (h5 : ¬ (matchedRows rows product_name).length < 5)
    (hq : 0 ≤ quantity)
    (hpos : ∀ r ∈ matchedRows rows product_name, 0 ≤ r.qty) :
    0 ≤ (get_distribution rows product_name quantity none).caShare
    ∧ 0 ≤ (get_distribution rows product_name quantity none).houShare
    ∧ 0 ≤ (get_distribution rows product_name quantity none).wmShare
    ∧ (get_distribution rows product_name quantity none).caShare
      + (get_distribution rows product_name quantity none).houShare
      + (get_distribution rows product_name quantity none).wmShare = quantity
    ∧ (get_distribution rows product_name quantity none).wmShare
      = pyInt ((quantity : ℚ) * (warehouseQty "West Memphis" (matchedRows rows product_name)
          / histDenom (matchedRows rows product_name)))
        + (quantity
          - (pyInt ((quantity : ℚ) * (warehouseQty "California" (matchedRows rows product_name)
              / histDenom (matchedRows rows product_name)))
            + pyInt ((quantity : ℚ) * (warehouseQty "Houston" (matchedRows rows product_name)
              / histDenom (matchedRows rows product_name)))
            + pyInt ((quantity : ℚ) * (warehouseQty "West Memphis" (matchedRows rows product_name)
              / histDenom (matchedRows rows product_name))))) := by
  have hres : get_distribution rows product_name quantity none
      = .hist (pyInt ((quantity : ℚ) * (warehouseQty "California" (matchedRows rows product_name)
            / histDenom (matchedRows rows product_name))))
          (pyInt ((quantity : ℚ) * (warehouseQty "Houston" (matchedRows rows product_name)
            / histDenom (matchedRows rows product_name))))
          (pyInt ((quantity : ℚ) * (warehouseQty "West Memphis" (matchedRows rows product_name)
            / histDenom (matchedRows rows product_name)))
            + (quantity
              - (pyInt ((quantity : ℚ) * (warehouseQty "California" (matchedRows rows product_name)
                  / histDenom (matchedRows rows product_name)))
                + pyInt ((quantity : ℚ) * (warehouseQty "Houston" (matchedRows rows product_name)
                  / histDenom (matchedRows rows product_name)))
                + pyInt ((quantity : ℚ) * (warehouseQty "West Memphis" (matchedRows rows product_name)
                  / histDenom (matchedRows rows product_name))))))
          (matchedRows rows product_name).length
          (if 20 < (matchedRows rows product_name).length then "HIGH" else "MEDIUM") := by
    simp only [get_distribution, truthy]
    rw [if_neg hrows, if_neg h5]
  have hCA0 : 0 ≤ warehouseQty "California" (matchedRows rows product_name) := by
    refine sumQty_nonneg ?_
    intro r hr
    exact hpos r (List.mem_of_mem_filter hr)
  have hH0 : 0 ≤ warehouseQty "Houston" (matchedRows rows product_name) := by
    refine sumQty_nonneg ?_
    intro r hr
    exact hpos r (List.mem_of_mem_filter hr)
  have hWM0 : 0 ≤ warehouseQty "West Memphis" (matchedRows rows product_name) := by
    refine sumQty_nonneg ?_
    intro r hr
    exact hpos r (List.mem_of_mem_filter hr)
  have htot0 : 0 ≤ histTotal (matchedRows rows product_name) := by
    unfold histTotal
    linarith
  have hden0 : 0 < histDenom (matchedRows rows product_name) := by
    unfold histDenom
    split
    · norm_num
    · rename_i h0
      exact lt_of_le_of_ne htot0 (Ne.symm h0)
  have hfrac : histTotal (matchedRows rows product_name)
      / histDenom (matchedRows rows product_name) ≤ 1 := by
    unfold histDenom
    split
    · rename_i h0
      rw [h0]
      norm_num
    · rename_i h0
      rw [div_self h0]
  have hq' : (0 : ℚ) ≤ (quantity : ℚ) := by exact_mod_cast hq
  have hxCA : 0 ≤ (quantity : ℚ) * (warehouseQty "California" (matchedRows rows product_name)
      / histDenom (matchedRows rows product_name)) :=
    mul_nonneg hq' (div_nonneg hCA0 hden0.le)
  have hxH : 0 ≤ (quantity : ℚ) * (warehouseQty "Houston" (matchedRows rows product_name)
      / histDenom (matchedRows rows product_name)) :=
    mul_nonneg hq' (div_nonneg hH0 hden0.le)
  have hxWM : 0 ≤ (quantity : ℚ) * (warehouseQty "West Memphis" (matchedRows rows product_name)
      / histDenom (matchedRows rows product_name)) :=
    mul_nonneg hq' (div_nonneg hWM0 hden0.le)
  have hsum_le : pyInt ((quantity : ℚ) * (warehouseQty "California" (matchedRows rows product_name)
        / histDenom (matchedRows rows product_name)))
      + pyInt ((quantity : ℚ) * (warehouseQty "Houston" (matchedRows rows product_name)
        / histDenom (matchedRows rows product_name)))
      + pyInt ((quantity : ℚ) * (warehouseQty "West Memphis" (matchedRows rows product_name)
        / histDenom (matchedRows rows product_name))) ≤ quantity := by
    rw [pyInt_eq_floor hxCA, pyInt_eq_floor hxH, pyInt_eq_floor hxWM]
    have h1 : ((⌊(quantity : ℚ) * (warehouseQty "California" (matchedRows rows product_name)
          / histDenom (matchedRows rows product_name))⌋
        + ⌊(quantity : ℚ) * (warehouseQty "Houston" (matchedRows rows product_name)
          / histDenom (matchedRows rows product_name))⌋
        + ⌊(quantity : ℚ) * (warehouseQty "West Memphis" (matchedRows rows product_name)
          / histDenom (matchedRows rows product_name))⌋ : ℤ) : ℚ) ≤ (quantity : ℚ) := by
      push_cast
      have hfCA := Int.floor_le ((quantity : ℚ) * (warehouseQty "California" (matchedRows rows product_name)
          / histDenom (matchedRows rows product_name)))
      have hfH := Int.floor_le ((quantity : ℚ) * (warehouseQty "Houston" (matchedRows rows product_name)
          / histDenom (matchedRows rows product_name)))
      have hfWM := Int.floor_le ((quantity : ℚ) * (warehouseQty "West Memphis" (matchedRows rows product_name)
          / histDenom (matchedRows rows product_name)))
      have hx : (quantity : ℚ) * (warehouseQty "California" (matchedRows rows product_name)
            / histDenom (matchedRows rows product_name))
          + (quantity : ℚ) * (warehouseQty "Houston" (matchedRows rows product_name)
            / histDenom (matchedRows rows product_name))
          + (quantity : ℚ) * (warehouseQty "West Memphis" (matchedRows rows product_name)
            / histDenom (matchedRows rows product_name))
          = (quantity : ℚ) * (histTotal (matchedRows rows product_name)
            / histDenom (matchedRows rows product_name)) := by
        unfold histTotal
        ring
      have hle : (quantity : ℚ) * (histTotal (matchedRows rows product_name)
          / histDenom (matchedRows rows product_name)) ≤ (quantity : ℚ) * 1 :=
        mul_le_mul_of_nonneg_left hfrac hq'
      rw [mul_one] at hle
      linarith
    exact_mod_cast h1
  refine ⟨?_, ?_, ?_, ?_, ?_⟩
  · rw [hres]
    exact pyInt_nonneg hxCA
  · rw [hres]
    exact pyInt_nonneg hxH
  · rw [hres]
    have := pyInt_nonneg hxWM
    simp only [DistResult.wmShare]
    omega
  · rw [hres]
    simp only [DistResult.caShare, DistResult.houShare, DistResult.wmShare]
    ring
  · rw [hres]
    rfl

theorem get_distribution_hist_partition_witness :
    (([⟨"USA", "TEXAS", "P", 10, none⟩, ⟨"USA", "TEXAS", "P", 10, none⟩,
       ⟨"USA", "TEXAS", "P", 10, none⟩, ⟨"USA", "TEXAS", "P", 10, none⟩,
       ⟨"USA", "TEXAS", "P", 10, none⟩] : List SRow) ≠ [])
    ∧ (0 ≤ (get_distribution
        [⟨"USA", "TEXAS", "P", 10, none⟩, ⟨"USA", "TEXAS", "P", 10, none⟩,
         ⟨"USA", "TEXAS", "P", 10, none⟩, ⟨"USA", "TEXAS", "P", 10, none⟩,
         ⟨"USA", "TEXAS", "P", 10, none⟩] "P" 7 none).caShare
      ∧ 0 ≤ (get_distribution
        [⟨"USA", "TEXAS", "P", 10, none⟩, ⟨"USA", "TEXAS", "P", 10, none⟩,
         ⟨"USA", "TEXAS", "P", 10, none⟩, ⟨"USA", "TEXAS", "P", 10, none⟩,
         ⟨"USA", "TEXAS", "P", 10, none⟩] "P" 7 none).houShare
      ∧ 0 ≤ (get_distribution
        [⟨"USA", "TEXAS", "P", 10, none⟩, ⟨"USA", "TEXAS", "P", 10, none⟩,
         ⟨"USA", "TEXAS", "P", 10, none⟩, ⟨"USA", "TEXAS", "P", 10, none⟩,
         ⟨"USA", "TEXAS", "P", 10, none⟩] "P" 7 none).wmShare
      ∧ (get_distribution
        [⟨"USA", "TEXAS", "P", 10, none⟩, ⟨"USA", "TEXAS", "P", 10, none⟩,
         ⟨"USA", "TEXAS", "P", 10, none⟩, ⟨"USA", "TEXAS", "P", 10, none⟩,
         ⟨"USA", "TEXAS", "P", 10, none⟩] "P" 7 none).caShare
        + (get_distribution
        [⟨"USA", "TEXAS", "P", 10, none⟩, ⟨"USA", "TEXAS", "P", 10, none⟩,
         ⟨"USA", "TEXAS", "P", 10, none⟩, ⟨"USA", "TEXAS", "P", 10, none⟩,
         ⟨"USA", "TEXAS", "P", 10, none⟩] "P" 7 none).houShare
        + (get_distribution
        [⟨"USA", "TEXAS", "P", 10, none⟩, ⟨"USA", "TEXAS", "P", 10, none⟩,
         ⟨"USA", "TEXAS", "P", 10, none⟩, ⟨"USA", "TEXAS", "P", 10, none⟩,
         ⟨"USA", "TEXAS", "P", 10, none⟩] "P" 7 none).wmShare = 7
      ∧ (get_distribution
        [⟨"USA", "TEXAS", "P", 10, none⟩, ⟨"USA", "TEXAS", "P", 10, none⟩,
         ⟨"USA", "TEXAS", "P", 10, none⟩, ⟨"USA", "TEXAS", "P", 10, none⟩,
         ⟨"USA", "TEXAS", "P", 10, none⟩] "P" 7 none).wmShare
        = pyInt (((7 : ℤ) : ℚ) * (warehouseQty "West Memphis" (matchedRows
            [⟨"USA", "TEXAS", "P", 10, none⟩, ⟨"USA", "TEXAS", "P", 10, none⟩,
             ⟨"USA", "TEXAS", "P", 10, none⟩, ⟨"USA", "TEXAS", "P", 10, none⟩,
             ⟨"USA", "TEXAS", "P", 10, none⟩] "P")
            / histDenom (matchedRows
            [⟨"USA", "TEXAS", "P", 10, none⟩, ⟨"USA", "TEXAS", "P", 10, none⟩,
             ⟨"USA", "TEXAS", "P", 10, none⟩, ⟨"USA", "TEXAS", "P", 10, none⟩,
             ⟨"USA", "TEXAS", "P", 10, none⟩] "P")))
          + ((7 : ℤ)
            - (pyInt (((7 : ℤ) : ℚ) * (warehouseQty "California" (matchedRows
                [⟨"USA", "TEXAS", "P", 10, none⟩, ⟨"USA", "TEXAS", "P", 10, none⟩,
                 ⟨"USA", "TEXAS", "P", 10, none⟩, ⟨"USA", "TEXAS", "P", 10, none⟩,
                 ⟨"USA", "TEXAS", "P", 10, none⟩] "P")
                / histDenom (matchedRows
                [⟨"USA", "TEXAS", "P", 10, none⟩, ⟨"USA", "TEXAS", "P", 10, none⟩,
                 ⟨"USA", "TEXAS", "P", 10, none⟩, ⟨"USA", "TEXAS", "P", 10, none⟩,
                 ⟨"USA", "TEXAS", "P", 10, none⟩] "P")))
              + pyInt (((7 : ℤ) : ℚ) * (warehouseQty "Houston" (matchedRows
                [⟨"USA", "TEXAS", "P", 10, none⟩, ⟨"USA", "TEXAS", "P", 10, none⟩,
                 ⟨"USA", "TEXAS", "P", 10, none⟩, ⟨"USA", "TEXAS", "P", 10, none⟩,
                 ⟨"USA", "TEXAS", "P", 10, none⟩] "P")
                / histDenom (matchedRows
                [⟨"USA", "TEXAS", "P", 10, none⟩, ⟨"USA", "TEXAS", "P", 10, none⟩,
                 ⟨"USA", "TEXAS", "P", 10, none⟩, ⟨"USA", "TEXAS", "P", 10, none⟩,
                 ⟨"USA", "TEXAS", "P", 10, none⟩] "P")))
              + pyInt (((7 : ℤ) : ℚ) * (warehouseQty "West Memphis" (matchedRows
                [⟨"USA", "TEXAS", "P", 10, none⟩, ⟨"USA", "TEXAS", "P", 10, none⟩,
                 ⟨"USA", "TEXAS", "P", 10, none⟩, ⟨"USA", "TEXAS", "P", 10, none⟩,
                 ⟨"USA", "TEXAS", "P", 10, none⟩] "P")
                / histDenom (matchedRows
                [⟨"USA", "TEXAS", "P", 10, none⟩, ⟨"USA", "TEXAS", "P", 10, none⟩,
                 ⟨"USA", "TEXAS", "P", 10, none⟩, ⟨"USA", "TEXAS", "P", 10, none⟩,
                 ⟨"USA", "TEXAS", "P", 10, none⟩] "P")))))) :=
  ⟨by decide, get_distribution_hist_partition
    [⟨"USA", "TEXAS", "P", 10, none⟩, ⟨"USA", "TEXAS", "P", 10, none⟩,
     ⟨"USA", "TEXAS", "P", 10, none⟩, ⟨"USA", "TEXAS", "P", 10, none⟩,
     ⟨"USA", "TEXAS", "P", 10, none⟩] "P" 7 (by decide) (by decide) (by decide)
    (by decide)⟩

/-! ## C7: unparseable date ranges in `search_orders` -/

/-- C7.  A `date_range` that parses under none of the supported forms
makes `search_orders` return the error object listing the supported
formats when no other filter was supplied; the identical call with an
additional (non-empty) customer filter is not an error — it behaves
exactly as if no date range had been passed at all, with no warning. -/
theorem search_orders_unparseable_date (today : PyDate) (rows : List ORow)
    (dr c : String) (hrows : rows ≠ []) (hdr : dr ≠ "") (hc : c ≠ "")
    (hparse : parseOrdersDate today dr = none) :
    search_orders today none none none (some dr) rows = .dateError SUPPORTED_DATE_FORMATS
    ∧ (search_orders today (some c) none none (some dr) rows).isDateError = false
    ∧ search_orders today (some c) none none (some dr) rows
        = search_orders today (some c) none none none rows := by
  have htr : truthy (some dr) = some dr := by simp [truthy, hdr]
  have htc : truthy (some c) = some c := by simp [truthy, hc]
  refine ⟨?_, ?_, ?_⟩
  · simp [search_orders, truthy, hdr, hparse, hrows]
  · simp only [search_orders, truthy]
    rw [if_neg hrows, if_neg hc, if_neg hdr]
    simp only [hparse]
    rw [if_neg (by simp)]
    unfold finalizeOrders
    split <;> rfl
  · simp only [search_orders, truthy]
    rw [if_neg hrows, if_neg hc, if_neg hdr]
    simp only [hparse]
    rw [if_neg (by simp), if_neg hrows]

theorem search_orders_unparseable_date_witness :
    (([⟨"ACME CORP", "ACME SHIP", "N 14", "TEXAS", 10, some ⟨2024, 5, 3⟩⟩] : List ORow) ≠ [])
    ∧ parseOrdersDate ⟨2025, 10, 12⟩ "banana" = none
    ∧ (search_orders ⟨2025, 10, 12⟩ none none none (some "banana")
          [⟨"ACME CORP", "ACME SHIP", "N 14", "TEXAS", 10, some ⟨2024, 5, 3⟩⟩]
        = .dateError SUPPORTED_DATE_FORMATS
      ∧ (search_orders ⟨2025, 10, 12⟩ (some "ACME") none none (some "banana")
          [⟨"ACME CORP", "ACME SHIP", "N 14", "TEXAS", 10, some ⟨2024, 5, 3⟩⟩]).isDateError
          = false
      ∧ search_orders ⟨2025, 10, 12⟩ (some "ACME") none none (some "banana")
          [⟨"ACME CORP", "ACME SHIP", "N 14", "TEXAS", 10, some ⟨2024, 5, 3⟩⟩]
        = search_orders ⟨2025, 10, 12⟩ (some "ACME") none none none
          [⟨"ACME CORP", "ACME SHIP", "N 14", "TEXAS", 10, some ⟨2024, 5, 3⟩⟩]) :=
  ⟨by decide, by decide,
    search_orders_unparseable_date ⟨2025, 10, 12⟩
      [⟨"ACME CORP", "ACME SHIP", "N 14", "TEXAS", 10, some ⟨2024, 5, 3⟩⟩]
      "banana" "ACME" (by decide) (by decide) (by decide) (by decide)⟩

/-! ## C8: a destination matching nothing applies no filter -/

theorem destCascade_noMatch (dstr : String) (df : List FRow)
    (hlen : (pyStrip (pyUpper dstr)).length ≠ 2)
    (hhy : strHasSub (pyStrip (pyUpper dstr)) "-" = false)
    (hcust : df.filter
        (fun r => strHasSub (pyUpper r.customer) (pyStrip (pyUpper dstr))) = [])
    (hdest : df.filter
        (fun r => strHasSub (pyUpper r.dest) (pyStrip (pyUpper dstr))) = [])
    (hcity : df.filter
        (fun r => strHasSub (pyUpper r.cityState) (pyStrip (pyUpper dstr))) = [])
    (hword : wordScan (pyWords (pyStrip (pyUpper dstr))) df = none) :
    destCascade dstr df = ⟨df, [], []⟩ := by
  simp only [destCascade]
  rw [if_neg hlen, if_neg (by simp [hhy]), if_neg (by simp [hcust]),
    if_neg (by simp [hdest]), if_neg (by simp [hcity]), hword]

/-- C8 amended.  If the destination has length ≠ 2 (uppercased and
stripped), contains no hyphen, and matches no row of the
warehouse-filtered frame under any cascade strategy (customer, full
destination, city, or any token of length ≥ 3), then no destination
filter is applied: provided the warehouse- and date-filtered set is
non-empty, `search_freight` returns aggregate statistics over exactly
that set, with no smart notes and no suggestions.  (When that set is
empty the empty-result path runs instead, whose suggestions scan the
full frame — see the counterexample.) -/
theorem search_freight_no_match_applies_no_filter (today : PyDate)
    (warehouse dstr : String) (date_range : Option String) (rows : List FRow)
    (hrows : rows ≠ []) (hdstr : dstr ≠ "")
    (hlen : (pyStrip (pyUpper dstr)).length ≠ 2)
    (hhy : strHasSub (pyStrip (pyUpper dstr)) "-" = false)
    (hcust : (whFilter warehouse rows).filter
        (fun r => strHasSub (pyUpper r.customer) (pyStrip (pyUpper dstr))) = [])
    (hdest : (whFilter warehouse rows).filter
        (fun r => strHasSub (pyUpper r.dest) (pyStrip (pyUpper dstr))) = [])
    (hcity : (whFilter warehouse rows).filter
        (fun r => strHasSub (pyUpper r.cityState) (pyStrip (pyUpper dstr))) = [])
    (hword : wordScan (pyWords (pyStrip (pyUpper dstr))) (whFilter warehouse rows) = none)
    (hne : dateFiltered today date_range (whFilter warehouse rows) ≠ []) :
    (search_freight today warehouse date_range (some dstr) rows).isStats = true
    ∧ (search_freight today warehouse date_range (some dstr) rows).totalShipments
        = (dateFiltered today date_range (whFilter warehouse rows)).length
    ∧ (search_freight today warehouse date_range (some dstr) rows).smartNotes = []
    ∧ (search_freight today warehouse date_range (some dstr) rows).sugg = [] := by
  have hdc := destCascade_noMatch dstr (whFilter warehouse rows) hlen hhy hcust hdest hcity hword
  have htr : truthy (some dstr) = some dstr := by simp [truthy, hdstr]
  cases hp : (truthy date_range).bind (parseFreightDate today) with
  | none =>
    have hd : dateFiltered today date_range (whFilter warehouse rows)
        = whFilter warehouse rows := by
      unfold dateFiltered
      rw [hp]
    rw [hd] at hne ⊢
    simp only [search_freight, htr, hdc, hp]
    rw [if_neg hrows]
    unfold finalizeFreight
    rw [if_neg hne]
    exact ⟨rfl, rfl, rfl, rfl⟩
  | some v =>
    obtain ⟨s, e, lbl⟩ := v
    have hd : dateFiltered today date_range (whFilter warehouse rows)
        = (whFilter warehouse rows).filter (inDateRange s e) := by
      unfold dateFiltered
      rw [hp]
    rw [hd] at hne ⊢
    simp only [search_freight, htr, hdc, hp]
    rw [if_neg hrows]
    rw [if_neg (by simp [hne])]
    unfold finalizeFreight
    rw [if_neg hne]
    exact ⟨rfl, rfl, rfl, rfl⟩

theorem search_freight_no_match_applies_no_filter_witness :
    (([⟨some ⟨2025, 1, 5⟩, "ACME-DALLAS TX", 100, "Houston", 0⟩] : List FRow) ≠ [])
    ∧ wordScan (pyWords (pyStrip (pyUpper "ZEBRA")))
        (whFilter "all" [⟨some ⟨2025, 1, 5⟩, "ACME-DALLAS TX", 100, "Houston", 0⟩]) = none
    ∧ dateFiltered ⟨2025, 12, 30⟩ none
        (whFilter "all" [⟨some ⟨2025, 1, 5⟩, "ACME-DALLAS TX", 100, "Houston", 0⟩]) ≠ []
    ∧ ((search_freight ⟨2025, 12, 30⟩ "all" none (some "ZEBRA")
          [⟨some ⟨2025, 1, 5⟩, "ACME-DALLAS TX", 100, "Houston", 0⟩]).isStats = true
      ∧ (search_freight ⟨2025, 12, 30⟩ "all" none (some "ZEBRA")
          [⟨some ⟨2025, 1, 5⟩, "ACME-DALLAS TX", 100, "Houston", 0⟩]).totalShipments
          = (dateFiltered ⟨2025, 12, 30⟩ none
              (whFilter "all" [⟨some ⟨2025, 1, 5⟩, "ACME-DALLAS TX", 100, "Houston", 0⟩])).length
      ∧ (search_freight ⟨2025, 12, 30⟩ "all" none (some "ZEBRA")
          [⟨some ⟨2025, 1, 5⟩, "ACME-DALLAS TX", 100, "Houston", 0⟩]).smartNotes = []
      ∧ (search_freight ⟨2025, 12, 30⟩ "all" none (some "ZEBRA")
          [⟨some ⟨2025, 1, 5⟩, "ACME-DALLAS TX", 100, "Houston", 0⟩]).sugg = []) :=
  ⟨by decide, by decide, by decide,
    search_freight_no_match_applies_no_filter ⟨2025, 12, 30⟩ "all" "ZEBRA" none
      [⟨some ⟨2025, 1, 5⟩, "ACME-DALLAS TX", 100, "Houston", 0⟩]
      (by decide) (by decide) (by decide) (by decide) (by decide) (by decide)
      (by decide) (by decide) (by decide)⟩

/-- C8 counterexample.  With a warehouse filter that matches no row, the
cascade premise holds vacuously (every strategy matches nothing, so no
destination filter is applied), yet `search_freight` returns the
empty-result shape whose suggestions — computed over the FULL unfiltered
frame — are non-empty, instead of aggregate statistics with no
suggestions. -/
theorem search_freight_empty_with_suggestions :
    (pyStrip (pyUpper "DALLAS")).length ≠ 2
    ∧ strHasSub (pyStrip (pyUpper "DALLAS")) "-" = false
    ∧ whFilter "West Memphis" [⟨some ⟨2025, 1, 5⟩, "ACME-DALLAS TX", 100, "Houston", 0⟩] = []
    ∧ (destCascade "DALLAS"
        (whFilter "West Memphis"
          [⟨some ⟨2025, 1, 5⟩, "ACME-DALLAS TX", 100, "Houston", 0⟩])).labels = []
    ∧ (search_freight ⟨2025, 12, 30⟩ "West Memphis" none (some "DALLAS")
        [⟨some ⟨2025, 1, 5⟩, "ACME-DALLAS TX", 100, "Houston", 0⟩]).isStats = false
    ∧ (search_freight ⟨2025, 12, 30⟩ "West Memphis" none (some "DALLAS")
        [⟨some ⟨2025, 1, 5⟩, "ACME-DALLAS TX", 100, "Houston", 0⟩]).totalShipments = 0
    ∧ (search_freight ⟨2025, 12, 30⟩ "West Memphis" none (some "DALLAS")
        [⟨some ⟨2025, 1, 5⟩, "ACME-DALLAS TX", 100, "Houston", 0⟩]).sugg
        = ["ACME-DALLAS TX"] := by
  decide

/-! ## C1: the date-expansion ("never go from something to nothing")
invariant of `search_freight` -/

/-- C1 amended.  If the destination strategies matched at least one row,
the date range parsed but matched none of those rows, AND at least one
matched row has a valid (parseable) ship date, then the result is
non-empty: it reports statistics over the full destination-matched set,
and its smart notes state that there were no shipments on the queried
start date, give the count of historical shipments to that destination,
and name the actual ship date closest to the queried start date by
absolute day difference.  (When every matched row has an invalid ship
date the expansion is skipped and an empty result is returned — see the
counterexample.) -/
theorem search_freight_date_expansion (today : PyDate) (warehouse dstr dr : String)
    (rows : List FRow) (s e : PyDate) (lbl : FilterLabel)
    (hrows : rows ≠ []) (hdstr : dstr ≠ "") (hdr : dr ≠ "")
    (hparse : parseFreightDate today dr = some (s, e, lbl))
    (hmatch : (destCascade dstr (whFilter warehouse rows)).rows ≠ [])
    (hdate : (destCascade dstr (whFilter warehouse rows)).rows.filter (inDateRange s e) = [])
    (hvalid : (destCascade dstr (whFilter warehouse rows)).rows.filterMap FRow.shipDate ≠ []) :
    (search_freight today warehouse (some dr) (some dstr) rows).isStats = true
    ∧ (search_freight today warehouse (some dr) (some dstr) rows).totalShipments
        = (destCascade dstr (whFilter warehouse rows)).rows.length
    ∧ 0 < (destCascade dstr (whFilter warehouse rows)).rows.length
    ∧ SmartNote.noShipmentsOn s
        ∈ (search_freight today warehouse (some dr) (some dstr) rows).smartNotes
    ∧ SmartNote.foundHistorical (destCascade dstr (whFilter warehouse rows)).rows.length
        ∈ (search_freight today warehouse (some dr) (some dstr) rows).smartNotes
    ∧ (∃ c, minByAbsDays s (sortByDays
          ((destCascade dstr (whFilter warehouse rows)).rows.filterMap FRow.shipDate)) = some c
        ∧ SmartNote.closestDate c
          ∈ (search_freight today warehouse (some dr) (some dstr) rows).smartNotes) := by
  have htrd : truthy (some dstr) = some dstr := by simp [truthy, hdstr]
  have htdr : truthy (some dr) = some dr := by simp [truthy, hdr]
  obtain ⟨c, hc⟩ : ∃ c, minByAbsDays s (sortByDays
      ((destCascade dstr (whFilter warehouse rows)).rows.filterMap FRow.shipDate)) = some c := by
    cases hsd : sortByDays ((destCascade dstr (whFilter warehouse rows)).rows.filterMap
        FRow.shipDate) with
    | nil => exact absurd hsd (sortByDays_ne_nil hvalid)
    | cons a as => exact ⟨_, rfl⟩
  have hres : search_freight today warehouse (some dr) (some dstr) rows
      = finalizeFreight rows (some dstr)
          ((((whLabels warehouse ++ (destCascade dstr (whFilter warehouse rows)).labels)
              ++ [lbl]).filter (fun l => !isDateLabel l)) ++ [.expandedSearch s])
          ((destCascade dstr (whFilter warehouse rows)).notes
            ++ [.noShipmentsOn s,
              .foundHistorical (destCascade dstr (whFilter warehouse rows)).rows.length,
              .closestDate c])
          (destCascade dstr (whFilter warehouse rows)).rows := by
    simp only [search_freight, htrd, htdr, Option.some_bind, hparse]
    rw [if_neg hrows]
    simp only [hdate]
    rw [if_pos (by simp [hmatch]), hc]
  have hlen : 0 < (destCascade dstr (whFilter warehouse rows)).rows.length :=
    List.length_pos.mpr hmatch
  rw [hres]
  unfold finalizeFreight
  rw [if_neg hmatch]
  refine ⟨rfl, rfl, hlen, ?_, ?_, ⟨c, hc, ?_⟩⟩ <;>
    simp [FreightResult.smartNotes, List.mem_append]

theorem search_freight_date_expansion_witness :
    parseFreightDate ⟨2025, 12, 30⟩ "12/29/2025"
        = some (⟨2025, 12, 29⟩, ⟨2025, 12, 29⟩, .dateIs ⟨2025, 12, 29⟩)
    ∧ (destCascade "ACME" (whFilter "all"
        [⟨some ⟨2025, 3, 10⟩, "ACME-DALLAS TX", 100, "Houston", 5⟩])).rows ≠ []
    ∧ (destCascade "ACME" (whFilter "all"
        [⟨some ⟨2025, 3, 10⟩, "ACME-DALLAS TX", 100, "Houston", 5⟩])).rows.filter
        (inDateRange ⟨2025, 12, 29⟩ ⟨2025, 12, 29⟩) = []
    ∧ ((search_freight ⟨2025, 12, 30⟩ "all" (some "12/29/2025") (some "ACME")
          [⟨some ⟨2025, 3, 10⟩, "ACME-DALLAS TX", 100, "Houston", 5⟩]).isStats = true
      ∧ (search_freight ⟨2025, 12, 30⟩ "all" (some "12/29/2025") (some "ACME")
          [⟨some ⟨2025, 3, 10⟩, "ACME-DALLAS TX", 100, "Houston", 5⟩]).totalShipments
          = (destCascade "ACME" (whFilter "all"
              [⟨some ⟨2025, 3, 10⟩, "ACME-DALLAS TX", 100, "Houston", 5⟩])).rows.length
      ∧ 0 < (destCascade "ACME" (whFilter "all"
          [⟨some ⟨2025, 3, 10⟩, "ACME-DALLAS TX", 100, "Houston", 5⟩])).rows.length
      ∧ SmartNote.noShipmentsOn ⟨2025, 12, 29⟩
          ∈ (search_freight ⟨2025, 12, 30⟩ "all" (some "12/29/2025") (some "ACME")
              [⟨some ⟨2025, 3, 10⟩, "ACME-DALLAS TX", 100, "Houston", 5⟩]).smartNotes
      ∧ SmartNote.foundHistorical (destCascade "ACME" (whFilter "all"
            [⟨some ⟨2025, 3, 10⟩, "ACME-DALLAS TX", 100, "Houston", 5⟩])).rows.length
          ∈ (search_freight ⟨2025, 12, 30⟩ "all" (some "12/29/2025") (some "ACME")
              [⟨some ⟨2025, 3, 10⟩, "ACME-DALLAS TX", 100, "Houston", 5⟩]).smartNotes
      ∧ (∃ c, minByAbsDays ⟨2025, 12, 29⟩ (sortByDays
            ((destCascade "ACME" (whFilter "all"
              [⟨some ⟨2025, 3, 10⟩, "ACME-DALLAS TX", 100, "Houston", 5⟩])).rows.filterMap
              FRow.shipDate)) = some c
          ∧ SmartNote.closestDate c
            ∈ (search_freight ⟨2025, 12, 30⟩ "all" (some "12/29/2025") (some "ACME")
                [⟨some ⟨2025, 3, 10⟩, "ACME-DALLAS TX", 100, "Houston", 5⟩]).smartNotes)) :=
  ⟨by decide, by decide, by decide,
    search_freight_date_expansion ⟨2025, 12, 30⟩ "all" "ACME" "12/29/2025"
      [⟨some ⟨2025, 3, 10⟩, "ACME-DALLAS TX", 100, "Houston", 5⟩]
      ⟨2025, 12, 29⟩ ⟨2025, 12, 29⟩ (.dateIs ⟨2025, 12, 29⟩)
      (by decide) (by decide) (by decide) (by decide) (by decide) (by decide) (by decide)⟩

/-- C1 counterexample.  The claim as stated fails when every
destination-matched row has an unparseable (`NaT`) ship date: the
destination matched one row, the parsed date range matched none of the
rows, yet `search_freight` returns the empty-result shape with zero
shipments (the expansion requires at least one valid actual ship
date). -/
theorem search_freight_expansion_needs_valid_dates :
    (destCascade "ACME" (whFilter "all"
        [⟨none, "ACME-DALLAS TX", 100, "Houston", 5⟩])).rows.length = 1
    ∧ (destCascade "ACME" (whFilter "all"
        [⟨none, "ACME-DALLAS TX", 100, "Houston", 5⟩])).rows.filter
        (inDateRange ⟨2025, 12, 29⟩ ⟨2025, 12, 29⟩) = []
    ∧ parseFreightDate ⟨2025, 12, 30⟩ "12/29/2025"
        = some (⟨2025, 12, 29⟩, ⟨2025, 12, 29⟩, .dateIs ⟨2025, 12, 29⟩)
    ∧ (search_freight ⟨2025, 12, 30⟩ "all" (some "12/29/2025") (some "ACME")
        [⟨none, "ACME-DALLAS TX", 100, "Houston", 5⟩]).totalShipments = 0
    ∧ (search_freight ⟨2025, 12, 30⟩ "all" (some "12/29/2025") (some "ACME")
        [⟨none, "ACME-DALLAS TX", 100, "Houston", 5⟩]).isStats = false
    ∧ (search_freight ⟨2025, 12, 30⟩ "all" (some "12/29/2025") (some "ACME")
        [⟨none, "ACME-DALLAS TX", 100, "Houston", 5⟩]).smartNotes = [] := by
  decide

end Prophet
